import Mathlib

/-!
Verification of the access-control and process-supervision core of the
LiveBench API server (`livebench/api/server.py`).

The Python source is embedded shallowly:

* timestamps (`time.time()`) become `Int` instants (the rate limiter only
  subtracts and compares them);
* the module-level configuration globals become fields of `ServerConfig`;
* the sliding-window rate limiter `_enforce_rate_limit`, tenant resolution
  `_resolve_tenant_id` / `_get_tenant_paths`, token handling
  `_extract_auth_token` / `_validate_api_token`, the two admission gates
  `require_write_auth` / `require_read_auth`, the simulation supervisor
  endpoints `start_simulation` / `get_simulations` / `stop_simulation`, and
  `ConnectionManager.broadcast` become pure functions that return their
  result together with the effects they would perform (audit events emitted,
  registry document written, subprocess spawned, bucket state);
* the cryptographic digest `hashlib.sha256(...).hexdigest()[:32]` used by
  `_tenant_key` is abstracted as an explicit function parameter `keyFn`,
  since no claim depends on the digest's concrete value.
-/

namespace LiveBench

/-- Python whitespace for `str.strip()` (the ASCII part: space, tab,
newline, vertical tab, form feed, carriage return). -/
def isPySpace (c : Char) : Bool :=
  c = ' ' || c = '\t' || c = '\n' || c.toNat = 11 || c.toNat = 12 || c = '\r'

/-- `s.strip()`: drop leading and trailing whitespace. -/
def pyStrip (s : String) : String :=
  String.mk
    ((((s.toList.dropWhile isPySpace).reverse.dropWhile isPySpace).reverse))

/-- ASCII lowercasing of one character, as `str.lower()` acts on the ASCII
range (the only range the bearer prefix check can match). -/
def lowerChar (c : Char) : Char :=
  if 65 ≤ c.toNat && c.toNat ≤ 90 then Char.ofNat (c.toNat + 32) else c

/-- `s.lower()`. -/
def pyLower (s : String) : String :=
  String.mk (s.toList.map lowerChar)

/-- `s.startswith(pre)`. -/
def pyStartsWith (pre s : String) : Bool :=
  pre.toList.isPrefixOf s.toList

/-- The ASCII-only test `secrets.compare_digest` imposes on `str` arguments
(it raises `TypeError` for a `str` with non-ASCII characters). -/
def isAsciiStr (s : String) : Bool :=
  s.toList.all fun c => c.toNat ≤ 127

/-- Status field of an audit event, as emitted by `_audit_log`. -/
inductive AuditStatus
  | allowed
  | denied
  | rateLimited
  | error
deriving DecidableEq, Repr

/-- JSON values, as far as the start-configuration handling inspects them
(`other` covers null, booleans and numbers, whose only relevant property is
that `len()` raises on them). -/
inductive JValue
  | str (s : String)
  | obj (fields : List (String × JValue))
  | arr (xs : List JValue)
  | other

/-- The `details` payload of an audit event (only the fields the embedded
operations actually put there; the start audit's `signature` is whatever
JSON value the config carried, not necessarily a string). -/
inductive AuditDetails
  | empty
  | rateLimit (limit : Int) (windowSec : Int)
  | simulationStop (simId : String)
  | simulationStopError (simId : String) (msg : String)
  | simulationStart (simId : String) (signature : JValue) (tenantKey : String)
  | startError (msg : String)

/-- One structured audit event, as printed by `_audit_log` (the request
method/path/ip-hash fields are ambient request data and carry no
claim-relevant information, so only action, status and details are kept). -/
structure AuditEvent where
  action : String
  status : AuditStatus
  details : AuditDetails

/-- The deployment configuration read from environment variables at module
load: auth-requirement flags, tenant-context flag, API token, rate-limit
settings and the environment-variable allow-list. -/
structure ServerConfig where
  requireMutationAuth : Bool
  requireReadAuth : Bool
  requireTenantContext : Bool
  apiToken : String
  rateLimitEnabled : Bool
  rateLimitWindowSec : Int
  readRateLimit : Int
  writeRateLimit : Int
  tenantsRoot : String
  allowedEnvVarKeys : List String
deriving DecidableEq, Repr

/-- `window_sec = max(1, RATE_LIMIT_WINDOW_SEC)` from `_enforce_rate_limit`. -/
def ServerConfig.window (cfg : ServerConfig) : Int :=
  max 1 cfg.rateLimitWindowSec

/-- The eviction loop of `_enforce_rate_limit`:
`while bucket and (now - bucket[0]) > window_sec: bucket.popleft()`. -/
def evictOld (now : Int) (windowSec : Int) : List Int → List Int
  | [] => []
  | t :: ts =>
    if windowSec < now - t then evictOld now windowSec ts
    else t :: ts

/-- Result of one `_enforce_rate_limit` call: whether the request was
admitted, the audit events emitted, and the new bucket contents. -/
structure RLOutcome where
  admitted : Bool
  audits : List AuditEvent
  bucket : List Int

/-- `limit = WRITE_RATE_LIMIT if is_write else READ_RATE_LIMIT`. -/
def rlLimit (cfg : ServerConfig) (isWrite : Bool) : Int :=
  if isWrite then cfg.writeRateLimit else cfg.readRateLimit

/-- `_enforce_rate_limit(request, action, is_write)` acting on the bucket for
one fixed bucket key (`f"{action}:{client_ip}"`). -/
def enforceRateLimit (cfg : ServerConfig) (action : String) (isWrite : Bool)
    (bucket : List Int) (now : Int) : RLOutcome :=
  if cfg.rateLimitEnabled = false then
    { admitted := true, audits := [], bucket := bucket }
  else
    let limit := rlLimit cfg isWrite
    let w := cfg.window
    let b := evictOld now w bucket
    if limit ≤ (b.length : Int) then
      { admitted := false,
        audits := [⟨action, .rateLimited, .rateLimit limit w⟩],
        bucket := b }
    else
      { admitted := true, audits := [], bucket := b ++ [now] }

/-- Character class of `TENANT_ID_PATTERN = r"^[a-zA-Z0-9_.:@-]{1,128}$"`,
rendered on codepoints: the ranges `a`-`z`, `A`-`Z`, `0`-`9` and the five
singletons `_` (95), `.` (46), `:` (58), `@` (64), `-` (45). -/
def tenantCharOk (c : Char) : Bool :=
  (97 ≤ c.toNat && c.toNat ≤ 122) ||
  (65 ≤ c.toNat && c.toNat ≤ 90) ||
  (48 ≤ c.toNat && c.toNat ≤ 57) ||
  c.toNat = 95 || c.toNat = 46 || c.toNat = 58 || c.toNat = 64 || c.toNat = 45

/-- `TENANT_ID_PATTERN.fullmatch(tenant_id)`. -/
def tenantPatternOk (s : String) : Bool :=
  1 ≤ s.length && s.length ≤ 128 && s.toList.all tenantCharOk

/-- Failures surfaced by the admission pipeline, with their HTTP codes:
429 for `tooManyRequests`, 400 for the two tenant errors, 401 for
`unauthorized`, and 500 for `internalError` (an exception the gate never
catches, surfaced by the framework as Internal Server Error). -/
inductive GateError
  | tooManyRequests
  | missingTenant
  | invalidTenant
  | unauthorized
  | internalError
deriving DecidableEq, Repr

/-- `_resolve_tenant_id(request)`, with the raw `x-tenant-id` header value as
input (`None` when the header is absent). -/
def resolveTenantId (cfg : ServerConfig) (header : Option String) :
    Except GateError String :=
  let t := pyStrip (header.getD "")
  if t = "" then
    if cfg.requireTenantContext then .error .missingTenant
    else .ok "default"
  else if tenantPatternOk t then .ok t
  else .error .invalidTenant

/-- The per-tenant path record computed by `_get_tenant_paths`. -/
structure TenantPaths where
  tenant_id : String
  tenant_key : String
  tenant_root : String
  data_path : String
  simulations_path : String
  hidden_agents_path : String
  displaying_names_path : String
deriving DecidableEq, Repr

/-- `_get_tenant_paths(request)`.  `keyFn` abstracts `_tenant_key`, i.e.
`hashlib.sha256(tenant_id.encode()).hexdigest()[:32]`; every path is joined
from the fixed tenants root and `keyFn tenant_id` only. -/
def getTenantPaths (cfg : ServerConfig) (keyFn : String → String)
    (header : Option String) : Except GateError TenantPaths :=
  (resolveTenantId cfg header).map fun tid =>
    let key := keyFn tid
    let root := cfg.tenantsRoot ++ "/" ++ key
    { tenant_id := tid
      tenant_key := key
      tenant_root := root
      data_path := root ++ "/agent_data"
      simulations_path := root ++ "/simulations.json"
      hidden_agents_path := root ++ "/hidden_agents.json"
      displaying_names_path := root ++ "/displaying_names.json" }

/-- The text after the first space of `s`, i.e. `s.split(" ", 1)[1]` when a
space is present (and `""` otherwise; under the bearer guard a space always
exists at index 6). -/
def afterFirstSpace (s : String) : String :=
  String.mk ((s.toList.dropWhile (fun c => c ≠ ' ')).drop 1)

/-- The bearer guard of `_extract_auth_token`:
`authorization and authorization.lower().startswith("bearer ")`. -/
def bearerGuard (a : String) : Bool :=
  a ≠ "" && pyStartsWith "bearer " (pyLower a)

/-- `_extract_auth_token(authorization, x_clawwork_token)`. -/
def extractAuthToken (authorization xClawworkToken : Option String) : String :=
  let a := authorization.getD ""
  if bearerGuard a then pyStrip (afterFirstSpace a)
  else
    let x := xClawworkToken.getD ""
    if x ≠ "" then pyStrip x else ""

/-- Result of `_validate_api_token(token)`: the comparison can succeed,
fail, or raise (`secrets.compare_digest` raises `TypeError` when either
`str` argument contains non-ASCII characters). -/
inductive TokenCheck
  | valid
  | invalid
  | typeRaised
deriving DecidableEq, Repr

/-- `_validate_api_token(token)`: `bool(token) and
secrets.compare_digest(token, CLAWWORK_API_TOKEN)`.  An empty token
short-circuits to `invalid` before `compare_digest` is called; a nonempty
token reaches `compare_digest`, which raises `TypeError` when the token or
the configured secret is not ASCII-only, and otherwise performs
constant-time equality (extensionally, plain equality). -/
def validateApiToken (cfg : ServerConfig) (token : String) : TokenCheck :=
  if token = "" then .invalid
  else if !(isAsciiStr token) || !(isAsciiStr cfg.apiToken) then .typeRaised
  else if token = cfg.apiToken then .valid
  else .invalid

/-- The headers an admission gate inspects. -/
structure RequestHeaders where
  tenantHeader : Option String
  authorization : Option String
  xClawworkToken : Option String
deriving DecidableEq, Repr

deriving instance DecidableEq for Except

/-- Result of running an admission gate: the outcome surfaced to FastAPI,
the audit events emitted, and the new rate-limit bucket for this key. -/
structure GateResult where
  outcome : Except GateError Unit
  audits : List AuditEvent
  bucket : List Int

/-- Common body of `require_write_auth` / `require_read_auth`:
rate limit first, then tenant resolution, then (only when `requireFlag`)
token extraction and validation. -/
def requireAuthGate (cfg : ServerConfig) (keyFn : String → String)
    (action : String) (isWrite : Bool) (requireFlag : Bool)
    (h : RequestHeaders) (bucket : List Int) (now : Int) : GateResult :=
  let rl := enforceRateLimit cfg action isWrite bucket now
  if rl.admitted = false then
    { outcome := .error .tooManyRequests, audits := rl.audits, bucket := rl.bucket }
  else
    match getTenantPaths cfg keyFn h.tenantHeader with
    | .error e => { outcome := .error e, audits := rl.audits, bucket := rl.bucket }
    | .ok _ =>
      if requireFlag = false then
        { outcome := .ok (), audits := rl.audits, bucket := rl.bucket }
      else
        let token := extractAuthToken h.authorization h.xClawworkToken
        match validateApiToken cfg token with
        | .valid =>
          { outcome := .ok (), audits := rl.audits, bucket := rl.bucket }
        | .invalid =>
          { outcome := .error .unauthorized,
            audits := rl.audits ++ [⟨action ++ ".auth", .denied, .empty⟩],
            bucket := rl.bucket }
        | .typeRaised =>
          { outcome := .error .internalError, audits := rl.audits,
            bucket := rl.bucket }

/-- `require_write_auth`. -/
def require_write_auth (cfg : ServerConfig) (keyFn : String → String)
    (h : RequestHeaders) (bucket : List Int) (now : Int) : GateResult :=
  requireAuthGate cfg keyFn "api.write" true cfg.requireMutationAuth h bucket now

/-- `require_read_auth`. -/
def require_read_auth (cfg : ServerConfig) (keyFn : String → String)
    (h : RequestHeaders) (bucket : List Int) (now : Int) : GateResult :=
  requireAuthGate cfg keyFn "api.read" false cfg.requireReadAuth h bucket now

/-- Status of a simulation record (`"running"`, `"stopped"`, `"terminated"`
in the JSON registry). -/
inductive SimStatus
  | running
  | stopped
  | terminated
deriving DecidableEq, Repr

/-- One entry of the per-tenant `simulations.json` registry document (the
`signature` field holds whatever JSON value the signature extraction
produced, not necessarily a string). -/
structure SimRecord where
  id : String
  pid : Nat
  status : SimStatus
  signature : JValue
  tenant_key : String
  config_path : String
  start_time : String
  end_time : Option String

/-- State of the on-disk registry file as a supervisor operation finds it:
missing, present but malformed JSON, or a well-formed record list. -/
inductive RegistryFile
  | absent
  | malformed
  | wellFormed (sims : List SimRecord)

/-- Python dict lookup `fields[key]` / `fields.get(key)` on a parsed JSON
object (keys are unique in a dict, so the first binding decides). -/
def lookupField (fields : List (String × JValue)) (key : String) :
    Option JValue :=
  match fields with
  | [] => none
  | (k, v) :: rest => if k = key then some v else lookupField rest key

/-- Python dict assignment `fields[key] = v`: replace the existing binding
in place, or append a new one. -/
def setField (fields : List (String × JValue)) (key : String) (v : JValue) :
    List (String × JValue) :=
  match fields with
  | [] => [(key, v)]
  | (k, w) :: rest =>
    if k = key then (k, v) :: rest else (k, w) :: setField rest key v

/-- The config rewrite in `start_simulation`:
`sim_config.config.setdefault("livebench", {})["data_path"] = str(tenant_data_path)`.
When the existing `livebench` value is not an object the item assignment
raises `TypeError`, which the generic handler converts to a 500 error. -/
def injectDataPath (config : List (String × JValue)) (dataPath : String) :
    Except String (List (String × JValue)) :=
  match lookupField config "livebench" with
  | none =>
    .ok (setField config "livebench" (.obj [("data_path", .str dataPath)]))
  | some (.obj lb) =>
    .ok (setField config "livebench" (.obj (setField lb "data_path" (.str dataPath))))
  | some _ => .error "item assignment on non-dict livebench section"

/-- The signature extraction of `start_simulation`:

```
signature = "unknown"
if "agents" in config.get("livebench", {}) and len(config["livebench"]["agents"]) > 0:
    signature = config["livebench"]["agents"][0].get("signature", "unknown")
```

The `len` and `[0].get` steps raise for the shapes the code cannot handle:
`len()` raises `TypeError` on null/bool/number values; a nonempty string
indexes to a character with no `.get` (`AttributeError`); a nonempty JSON
object raises `KeyError 0` (its keys are strings); a non-object array
element has no `.get` (`AttributeError`).  A present `signature` key is
propagated as-is, whatever JSON value it holds.  (A non-object `livebench`
value never reaches this code in `start_simulation`: the data-path rewrite
has already raised on it.) -/
def getSignature (config : List (String × JValue)) : Except String JValue :=
  match lookupField config "livebench" with
  | some (.obj lb) =>
    match lookupField lb "agents" with
    | none => .ok (.str "unknown")
    | some (.arr []) => .ok (.str "unknown")
    | some (.arr (first :: _)) =>
      match first with
      | .obj a =>
        match lookupField a "signature" with
        | some v => .ok v
        | none => .ok (.str "unknown")
      | _ => .error "agents entry has no attribute get"
    | some (.str s) =>
      if s.length = 0 then .ok (.str "unknown")
      else .error "str agents entry has no attribute get"
    | some (.obj fields) =>
      if fields.length = 0 then .ok (.str "unknown")
      else .error "key 0 not in agents object"
    | some .other => .error "agents value has no len"
  | _ => .ok (.str "unknown")

/-- `unknown_keys = [k for k in sim_config.env_vars if k not in
ALLOWED_ENV_VAR_KEYS]`. -/
def unknownEnvKeys (allowed : List String) (envVars : List (String × String)) :
    List String :=
  (envVars.map Prod.fst).filter (fun k => !(allowed.contains k))

/-- Outcome of a `start_simulation` request. -/
inductive StartOutcome
  | success
  | clientError (unknownKeys : List String)
  | serverError (msg : String)
deriving DecidableEq, Repr

/-- Result and effects of one `start_simulation` call: the HTTP outcome, the
config document written to `configs/generated/<id>.json` (if reached), whether
the worker subprocess was spawned, the registry document written (if reached),
and the audit events emitted. -/
structure StartResult where
  outcome : StartOutcome
  configWritten : Option (List (String × JValue))
  spawned : Bool
  registryWritten : Option (List SimRecord)
  audits : List AuditEvent

/-- The registry contents `start_simulation` reads before appending:
a missing file and malformed JSON both yield the empty list (the
`json.JSONDecodeError` handler is `pass`). -/
def registryOrEmpty (file : RegistryFile) : List SimRecord :=
  match file with
  | .absent => []
  | .malformed => []
  | .wellFormed sims => sims

/-- `start_simulation(request, sim_config)` after the write gate has passed.
`paths` is the tenant-path record of the admitted request, `simId` the fresh
`uuid4`, `pid` the OS pid of the spawned child, `now` the formatted
`datetime.now().isoformat()`. -/
def start_simulation (paths : TenantPaths) (allowed : List String)
    (simId : String) (pid : Nat) (now : String)
    (config : List (String × JValue))
    (envVars : Option (List (String × String)))
    (file : RegistryFile) : StartResult :=
  match injectDataPath config paths.data_path with
  | .error msg =>
    { outcome := .serverError msg
      configWritten := none
      spawned := false
      registryWritten := none
      audits := [⟨"simulation.start", .error, .startError msg⟩] }
  | .ok config2 =>
    let unknown :=
      match envVars with
      | none => []
      | some evs => unknownEnvKeys allowed evs
    if unknown ≠ [] then
      { outcome := .clientError unknown
        configWritten := some config2
        spawned := false
        registryWritten := none
        audits := [] }
    else
      match getSignature config2 with
      | .error msg =>
        { outcome := .serverError msg
          configWritten := some config2
          spawned := true
          registryWritten := none
          audits := [⟨"simulation.start", .error, .startError msg⟩] }
      | .ok signature =>
        let newSim : SimRecord :=
          { id := simId
            pid := pid
            status := .running
            signature := signature
            tenant_key := paths.tenant_key
            config_path := "configs/generated/" ++ simId ++ ".json"
            start_time := now
            end_time := none }
        { outcome := .success
          configWritten := some config2
          spawned := true
          registryWritten := some (registryOrEmpty file ++ [newSim])
          audits := [⟨"simulation.start", .allowed,
                      .simulationStart simId signature paths.tenant_key⟩] }

/-- A record that `get_simulations` transitions: `running` with a pid whose
`os.kill(pid, 0)` probe raises `OSError`. -/
def simDead (alive : Nat → Bool) (sim : SimRecord) : Bool :=
  sim.status = .running && !(alive sim.pid)

/-- The liveness reconciliation in `get_simulations`: a `running` record whose
pid fails the `os.kill(pid, 0)` probe becomes `terminated` with an end time;
everything else is untouched.  The Bool reports whether the record changed. -/
def reconcileSim (alive : Nat → Bool) (now : String) (sim : SimRecord) :
    SimRecord × Bool :=
  if simDead alive sim then
    ({ sim with status := .terminated, end_time := some now }, true)
  else (sim, false)

/-- Result of one `get_simulations` call: the record list returned, the
`error` field of the response (set when reading the registry failed), and the
registry document rewritten to disk (written only when a record changed). -/
structure ListResult where
  simulations : List SimRecord
  errorNote : Option String
  written : Option (List SimRecord)

/-- `get_simulations(request)` after the read gate has passed.  `alive pid`
models `os.kill(pid, 0)` not raising `OSError`. -/
def get_simulations (alive : Nat → Bool) (now : String) (file : RegistryFile) :
    ListResult :=
  match file with
  | .absent => { simulations := [], errorNote := none, written := none }
  | .malformed =>
    { simulations := [], errorNote := some "json decode error", written := none }
  | .wellFormed sims =>
    let checked := sims.map (reconcileSim alive now)
    let newSims := checked.map Prod.fst
    let updated := checked.any Prod.snd
    { simulations := newSims
      errorNote := none
      written := if updated then some newSims else none }

/-- Outcome of a `stop_simulation` request. -/
inductive StopOutcome
  | notFound
  | success
  | serverError (msg : String)
deriving DecidableEq, Repr

/-- Result and effects of one `stop_simulation` call. -/
structure StopResult where
  outcome : StopOutcome
  written : Option (List SimRecord)
  audits : List AuditEvent

/-- The per-record body of the stop loop: a `running` record is signalled —
`SIGTERM` delivered (`killOk`) yields `stopped`, `OSError` (process already
gone) yields `terminated`, both with an end time; a terminal record is left
as-is. -/
def stopOne (killOk : Nat → Bool) (now : String) (sim : SimRecord) : SimRecord :=
  if sim.status = .running then
    if killOk sim.pid then { sim with status := .stopped, end_time := some now }
    else { sim with status := .terminated, end_time := some now }
  else sim

/-- The `for sim in simulations: if sim["id"] == sim_id: ...; break` loop of
`stop_simulation`: only the first record with a matching id is processed. -/
def stopScan (killOk : Nat → Bool) (now : String) (simId : String) :
    List SimRecord → List SimRecord × Bool
  | [] => ([], false)
  | s :: rest =>
    if s.id = simId then (stopOne killOk now s :: rest, true)
    else
      let r := stopScan killOk now simId rest
      (s :: r.1, r.2)

/-- `stop_simulation(sim_id, request)` after the write gate has passed.
A missing registry file is a 404; malformed JSON raises `json.JSONDecodeError`
inside the `try`, which only the generic `except Exception` handler catches —
an `error` audit event and a 500. -/
def stop_simulation (killOk : Nat → Bool) (now : String) (simId : String)
    (file : RegistryFile) : StopResult :=
  match file with
  | .absent => { outcome := .notFound, written := none, audits := [] }
  | .malformed =>
    { outcome := .serverError "json decode error"
      written := none
      audits := [⟨"simulation.stop", .error,
                  .simulationStopError simId "json decode error"⟩] }
  | .wellFormed sims =>
    let scanned := stopScan killOk now simId sims
    if scanned.2 = false then
      { outcome := .notFound, written := none, audits := [] }
    else
      { outcome := .success
        written := some scanned.1
        audits := [⟨"simulation.stop", .allowed, .simulationStop simId⟩] }

/-- The skip test of `ConnectionManager.broadcast`:
`if tenant_key and connection_tenant != tenant_key: continue`.
A `None` filter — and, by Python truthiness, an empty-string filter — skips
nothing. -/
def skipConn (tenantKey : Option String) (connTenant : String) : Bool :=
  match tenantKey with
  | none => false
  | some k => k ≠ "" && connTenant ≠ k

/-- Result of one `broadcast` call over the connection registry (connections
are identified by a numeric handle, paired with their stored tenant key):
the handles a send was attempted on, the handles whose send succeeded, and
the registry afterwards. -/
structure BroadcastResult where
  attempted : List Nat
  delivered : List Nat
  conns : List (Nat × String)
deriving DecidableEq, Repr

/-- The delivery loop of `ConnectionManager.broadcast`: send failures are
swallowed (`except: pass`) and never remove the connection. -/
def broadcastLoop (sendOk : Nat → Bool) (tenantKey : Option String) :
    List (Nat × String) → List Nat × List Nat
  | [] => ([], [])
  | c :: rest =>
    let r := broadcastLoop sendOk tenantKey rest
    if skipConn tenantKey c.2 then r
    else (c.1 :: r.1, if sendOk c.1 then c.1 :: r.2 else r.2)

/-- `ConnectionManager.broadcast(message, tenant_key)` (the message content
plays no role in routing, so it is omitted). -/
def broadcast (conns : List (Nat × String)) (sendOk : Nat → Bool)
    (tenantKey : Option String) : BroadcastResult :=
  let r := broadcastLoop sendOk tenantKey conns
  { attempted := r.1, delivered := r.2, conns := conns }

/-- A sequence of admission attempts against one bucket key, at the given
instants, threading the bucket state; returns the decisions and the final
bucket. -/
def runAttempts (cfg : ServerConfig) (action : String) (isWrite : Bool) :
    List Int → List Int → List Bool × List Int
  | bucket, [] => ([], bucket)
  | bucket, t :: ts =>
    let r := enforceRateLimit cfg action isWrite bucket t
    let rest := runAttempts cfg action isWrite r.bucket ts
    (r.admitted :: rest.1, rest.2)

/-- A recorded timestamp still inside the sliding window at instant `now`. -/
def freshAt (now : Int) (windowSec : Int) (t : Int) : Bool :=
  now - t ≤ windowSec

/-- ASCII control characters (C0 range and DEL). -/
def isControlChar (c : Char) : Bool :=
  c.toNat < 32 || c.toNat = 127

/-- The nested data-path field of a written config document:
`config["livebench"]["data_path"]` when that chain exists as a string. -/
def configDataPath (c : Option (List (String × JValue))) : Option String :=
  match c with
  | none => none
  | some fields =>
    match lookupField fields "livebench" with
    | some (.obj lb) =>
      match lookupField lb "data_path" with
      | some (.str s) => some s
      | _ => none
    | _ => none

/-- Connection registered under tenant key `k`. -/
def connMatches (k : String) (c : Nat × String) : Bool :=
  c.2 = k

/-- Send to connection `c` succeeds. -/
def sendPass (sendOk : Nat → Bool) (c : Nat × String) : Bool :=
  sendOk c.1

/-- A process-probe / send oracle that always succeeds. -/
def constTrue : Nat → Bool := fun _ => true

/-- A process-probe / send oracle that always fails. -/
def constFalse : Nat → Bool := fun _ => false

/-- A process-probe / send oracle succeeding exactly on pid `k`. -/
def eqNat (k : Nat) : Nat → Bool := fun n => n == k

/-- Example registry records for instantiating theorems. -/
def srA : SimRecord :=
  ⟨"sim-1", 41, .running, .str "sigA", "hacme",
    "configs/generated/sim-1.json", "2024-01-01T10:00:00", none⟩

/-- A second record sharing the id `"sim-1"` but with a different pid. -/
def srB : SimRecord :=
  ⟨"sim-1", 42, .running, .str "sigB", "hacme",
    "configs/generated/sim-1.json", "2024-01-01T10:00:00", none⟩

/-- A record with id `"sim-1"` already in the terminal state `stopped`. -/
def srC : SimRecord :=
  ⟨"sim-1", 43, .stopped, .str "sigC", "hacme",
    "configs/generated/sim-1.json", "2024-01-01T10:00:00",
    some "2024-01-01T11:00:00"⟩

/-- A record with a different id, `"sim-2"`. -/
def srOther : SimRecord :=
  ⟨"sim-2", 44, .running, .str "sigD", "hacme",
    "configs/generated/sim-2.json", "2024-01-01T10:00:00", none⟩

/-- A concrete production-like deployment configuration used to instantiate
theorems on explicit inputs. -/
def cfgEx : ServerConfig :=
  { requireMutationAuth := true
    requireReadAuth := true
    requireTenantContext := true
    apiToken := "s3cret-token"
    rateLimitEnabled := true
    rateLimitWindowSec := 60
    readRateLimit := 2
    writeRateLimit := 2
    tenantsRoot := "data/tenants"
    allowedEnvVarKeys :=
      ["OPENAI_API_KEY", "E2B_API_KEY", "WEB_SEARCH_API_KEY", "ANTHROPIC_API_KEY"] }

/-- A stand-in for the truncated sha256 hex digest `_tenant_key` (the claims
never depend on the digest value, only on paths being derived from it). -/
def exKeyFn : String → String := fun s => "h" ++ s

/-- A concrete tenant-path record, as `_get_tenant_paths` builds it for the
tenant id `"acme"` under `exKeyFn`. -/
def pathsEx : TenantPaths :=
  { tenant_id := "acme"
    tenant_key := "hacme"
    tenant_root := "data/tenants/hacme"
    data_path := "data/tenants/hacme/agent_data"
    simulations_path := "data/tenants/hacme/simulations.json"
    hidden_agents_path := "data/tenants/hacme/hidden_agents.json"
    displaying_names_path := "data/tenants/hacme/displaying_names.json" }

/-! ## Lemmas -/

lemma tenantPatternOk_iff (s : String) :
    tenantPatternOk s = true ↔
      1 ≤ s.length ∧ s.length ≤ 128 ∧ ∀ c ∈ s.toList, tenantCharOk c = true := by
  simp [tenantPatternOk, List.all_eq_true, Bool.and_eq_true, decide_eq_true_eq,
    and_assoc]

lemma tenantCharOk_bounds (c : Char) (h : tenantCharOk c = true) :
    32 ≤ c.toNat ∧ c.toNat < 127 := by
  simp only [tenantCharOk, Bool.or_eq_true, Bool.and_eq_true,
    decide_eq_true_eq] at h
  omega

lemma tenantPatternOk_false_of_bad (t : String)
    (hbad : '/' ∈ t.toList ∨ (∃ c ∈ t.toList, isControlChar c = true) ∨
      128 < t.length) :
    tenantPatternOk t = false := by
  rcases Bool.eq_false_or_eq_true (tenantPatternOk t) with h | h
  · exfalso
    rw [tenantPatternOk_iff] at h
    obtain ⟨h1, h2, h3⟩ := h
    rcases hbad with hs | ⟨c, hc, hctl⟩ | hlen
    · have := h3 _ hs
      simp [tenantCharOk] at this
    · have hb := tenantCharOk_bounds c (h3 _ hc)
      simp only [isControlChar, Bool.or_eq_true, decide_eq_true_eq] at hctl
      omega
    · omega
  · exact h

/-! ## Claim C1 -/

/-- Claim C1, counterexample: the tenant identifier `".."` consists of two
`.` characters, which the pattern `[a-zA-Z0-9_.:@-]{1,128}` allows, so a
tenant identifier containing `..` does NOT fail resolution — `".."` (and
`"a..b"`) resolve successfully, contrary to the claim that identifiers
containing `..` fail with `InvalidTenantContext`. -/
theorem C1_counterexample :
    resolveTenantId cfgEx (some "..") = .ok ".." ∧
    resolveTenantId cfgEx (some "a..b") = .ok "a..b" := by
  constructor
  · decide
  · decide

/-- Claim C1 (amended): after stripping, a nonempty tenant identifier that
contains `/`, contains a control character, or exceeds length 128 fails
resolution with `InvalidTenantContext` — the original claim minus its `..`
clause, which the counterexample refutes (`..` is made of allowed
characters and resolves successfully); in the failing case
`_get_tenant_paths` propagates the error, so no path record is built; and
for accepted identifiers every filesystem path is derived from the
identifier only through the digest `keyFn`: two accepted identifiers with
equal digests yield identical path fields. -/
theorem C1_tenant_validation (cfg : ServerConfig) (keyFn : String → String)
    (header hA hB : Option String) (t : String) (p1 p2 : TenantPaths)
    (ht : pyStrip (header.getD "") = t) (hne : t ≠ "")
    (hbad : '/' ∈ t.toList ∨ (∃ c ∈ t.toList, isControlChar c = true) ∨
      128 < t.length)
    (hp1 : getTenantPaths cfg keyFn hA = .ok p1)
    (hp2 : getTenantPaths cfg keyFn hB = .ok p2)
    (hkey : keyFn p1.tenant_id = keyFn p2.tenant_id) :
    resolveTenantId cfg header = .error .invalidTenant ∧
    getTenantPaths cfg keyFn header = .error .invalidTenant ∧
    p1.tenant_root = p2.tenant_root ∧
    p1.data_path = p2.data_path ∧
    p1.simulations_path = p2.simulations_path ∧
    p1.hidden_agents_path = p2.hidden_agents_path ∧
    p1.displaying_names_path = p2.displaying_names_path := by
  have hpat : tenantPatternOk t = false := tenantPatternOk_false_of_bad t hbad
  have hres : resolveTenantId cfg header = .error .invalidTenant := by
    unfold resolveTenantId
    rw [ht, if_neg hne, hpat]
    simp
  have hkey1 : p1.tenant_root = cfg.tenantsRoot ++ "/" ++ keyFn p1.tenant_id ∧
      p1.data_path = p1.tenant_root ++ "/agent_data" ∧
      p1.simulations_path = p1.tenant_root ++ "/simulations.json" ∧
      p1.hidden_agents_path = p1.tenant_root ++ "/hidden_agents.json" ∧
      p1.displaying_names_path = p1.tenant_root ++ "/displaying_names.json" := by
    unfold getTenantPaths at hp1
    cases hres1 : resolveTenantId cfg hA with
    | error e => rw [hres1] at hp1; simp [Except.map] at hp1
    | ok tid =>
      rw [hres1] at hp1
      simp only [Except.map, Except.ok.injEq] at hp1
      subst hp1
      simp
  have hkey2 : p2.tenant_root = cfg.tenantsRoot ++ "/" ++ keyFn p2.tenant_id ∧
      p2.data_path = p2.tenant_root ++ "/agent_data" ∧
      p2.simulations_path = p2.tenant_root ++ "/simulations.json" ∧
      p2.hidden_agents_path = p2.tenant_root ++ "/hidden_agents.json" ∧
      p2.displaying_names_path = p2.tenant_root ++ "/displaying_names.json" := by
    unfold getTenantPaths at hp2
    cases hres2 : resolveTenantId cfg hB with
    | error e => rw [hres2] at hp2; simp [Except.map] at hp2
    | ok tid =>
      rw [hres2] at hp2
      simp only [Except.map, Except.ok.injEq] at hp2
      subst hp2
      simp
  obtain ⟨r1, d1, s1, ha1, dn1⟩ := hkey1
  obtain ⟨r2, d2, s2, ha2, dn2⟩ := hkey2
  have hroot : p1.tenant_root = p2.tenant_root := by rw [r1, r2, hkey]
  refine ⟨hres, ?_, hroot, ?_, ?_, ?_, ?_⟩
  · unfold getTenantPaths
    rw [hres]
    rfl
  · rw [d1, d2, hroot]
  · rw [s1, s2, hroot]
  · rw [ha1, ha2, hroot]
  · rw [dn1, dn2, hroot]

/-- Witness for `C1_tenant_validation` at the header `"evil/path"` (contains
`/`), with the two accepted identifiers both `"acme"`. -/
theorem C1_tenant_validation_witness :
    resolveTenantId cfgEx (some "evil/path") = .error .invalidTenant ∧
    getTenantPaths cfgEx exKeyFn (some "evil/path") = .error .invalidTenant ∧
    pathsEx.tenant_root = pathsEx.tenant_root ∧
    pathsEx.data_path = pathsEx.data_path ∧
    pathsEx.simulations_path = pathsEx.simulations_path ∧
    pathsEx.hidden_agents_path = pathsEx.hidden_agents_path ∧
    pathsEx.displaying_names_path = pathsEx.displaying_names_path :=
  C1_tenant_validation cfgEx exKeyFn (some "evil/path") (some "acme")
    (some "acme") "evil/path" pathsEx pathsEx (by decide) (by decide)
    (Or.inl (by decide)) (by decide) (by decide) rfl

/-! ## Claim C2 -/

lemma evictOld_of_fresh (now : Int) (w : Int) (b : List Int)
    (h : ∀ t ∈ b, now - t ≤ w) : evictOld now w b = b := by
  cases b with
  | nil => rfl
  | cons t ts =>
    unfold evictOld
    rw [if_neg]
    exact not_lt.mpr (h t (List.mem_cons_self t ts))

lemma evictOld_of_stale (now : Int) (w : Int) (b : List Int)
    (h : ∀ t ∈ b, w < now - t) : evictOld now w b = [] := by
  induction b with
  | nil => rfl
  | cons t ts ih =>
    unfold evictOld
    rw [if_pos (h t (List.mem_cons_self t ts))]
    exact ih fun s hs => h s (List.mem_cons_of_mem t hs)

lemma evictOld_sorted (now : Int) (w : Int) (b : List Int)
    (h : List.Sorted (· ≤ ·) b) :
    evictOld now w b = b.filter (freshAt now w) := by
  induction b with
  | nil => rfl
  | cons t ts ih =>
    rw [List.sorted_cons] at h
    obtain ⟨hhead, htail⟩ := h
    by_cases hst : w < now - t
    · have hf : freshAt now w t = false := by
        simp only [freshAt, decide_eq_false_iff_not, not_le]
        exact hst
      unfold evictOld
      rw [if_pos hst, List.filter_cons_of_neg (by simp [hf]), ih htail]
    · have hf : freshAt now w t = true := by
        simp only [freshAt, decide_eq_true_eq]
        exact not_lt.mp hst
      unfold evictOld
      rw [if_neg hst, List.filter_cons_of_pos (by simp [hf])]
      congr 1
      rw [eq_comm]
      rw [List.filter_eq_self]
      intro s hs
      simp only [freshAt, decide_eq_true_eq]
      have h1 : t ≤ s := hhead s hs
      have h2 : now - t ≤ w := not_lt.mp hst
      omega

lemma enforceRateLimit_denied (cfg : ServerConfig) (action : String)
    (isWrite : Bool) (bucket : List Int) (now : Int)
    (hEn : cfg.rateLimitEnabled = true)
    (hge : rlLimit cfg isWrite ≤ ((evictOld now cfg.window bucket).length : Int)) :
    enforceRateLimit cfg action isWrite bucket now =
      { admitted := false
        audits := [⟨action, .rateLimited,
          .rateLimit (rlLimit cfg isWrite) cfg.window⟩]
        bucket := evictOld now cfg.window bucket } := by
  unfold enforceRateLimit
  rw [hEn]
  simp only [Bool.true_eq_false, if_false]
  rw [if_pos hge]

lemma enforceRateLimit_admitted (cfg : ServerConfig) (action : String)
    (isWrite : Bool) (bucket : List Int) (now : Int)
    (hEn : cfg.rateLimitEnabled = true)
    (hlt : ((evictOld now cfg.window bucket).length : Int) < rlLimit cfg isWrite) :
    enforceRateLimit cfg action isWrite bucket now =
      { admitted := true
        audits := []
        bucket := evictOld now cfg.window bucket ++ [now] } := by
  unfold enforceRateLimit
  rw [hEn]
  simp only [Bool.true_eq_false, if_false]
  rw [if_neg (not_le.mpr hlt)]

lemma runAttempts_all_admitted (cfg : ServerConfig) (action : String)
    (isWrite : Bool) (hEn : cfg.rateLimitEnabled = true) :
    ∀ (ts pre : List Int),
      ((pre.length + ts.length : Nat) : Int) ≤ rlLimit cfg isWrite →
      (∀ s, (s ∈ pre ∨ s ∈ ts) → ∀ u, (u ∈ pre ∨ u ∈ ts) → u - s ≤ cfg.window) →
      runAttempts cfg action isWrite pre ts =
        (List.replicate ts.length true, pre ++ ts) := by
  intro ts
  induction ts with
  | nil =>
    intro pre _ _
    simp [runAttempts]
  | cons t ts ih =>
    intro pre hlen hspan
    have hfresh : evictOld t cfg.window pre = pre :=
      evictOld_of_fresh t cfg.window pre fun s hs =>
        hspan s (Or.inl hs) t (Or.inr (List.mem_cons_self t ts))
    have hstep : enforceRateLimit cfg action isWrite pre t =
        { admitted := true, audits := [], bucket := pre ++ [t] } := by
      rw [enforceRateLimit_admitted cfg action isWrite pre t hEn]
      · rw [hfresh]
      · rw [hfresh]
        simp only [List.length_cons] at hlen
        omega
    have hrec : runAttempts cfg action isWrite (pre ++ [t]) ts =
        (List.replicate ts.length true, (pre ++ [t]) ++ ts) := by
      apply ih
      · simp only [List.length_append, List.length_cons, List.length_nil,
          List.length_cons] at hlen ⊢
        push_cast at hlen ⊢
        omega
      · intro s hs u hu
        apply hspan
        · rcases hs with hs | hs
          · rcases List.mem_append.mp hs with hs | hs
            · exact Or.inl hs
            · simp only [List.mem_singleton] at hs
              rw [hs]
              exact Or.inr (List.mem_cons_self _ _)
          · exact Or.inr (List.mem_cons_of_mem t hs)
        · rcases hu with hu | hu
          · rcases List.mem_append.mp hu with hu | hu
            · exact Or.inl hu
            · simp only [List.mem_singleton] at hu
              rw [hu]
              exact Or.inr (List.mem_cons_self _ _)
          · exact Or.inr (List.mem_cons_of_mem t hu)
    unfold runAttempts
    rw [hstep]
    simp only
    rw [hrec]
    simp [List.append_assoc, List.replicate_succ]

/-- Claim C2: with rate limiting enabled, for a bucket key with class limit
`L` and window `W`: (eviction) on a sorted bucket an attempt first drops
exactly the timestamps older than `now - W`; (denial) when at least `L`
timestamps remain the attempt is denied and audited `rate_limited` with the
limit and window; (admission) otherwise the current time is recorded and the
attempt admitted; (scenario) starting from an empty bucket, `L` attempts
within `W` seconds are all admitted and the `(L+1)`-th attempt within `W`
seconds of them is denied; after more than `W` seconds with no further
attempts the next attempt is admitted with the bucket holding only the new
entry. -/
theorem C2_sliding_window (cfg : ServerConfig) (action : String)
    (isWrite : Bool) (ts : List Int) (nowD later n2 n3 n4 : Int)
    (b2 b3 b4 : List Int)
    (hEn : cfg.rateLimitEnabled = true)
    (hL : (ts.length : Int) = rlLimit cfg isWrite)
    (hne : ts ≠ [])
    (hspan : ∀ s ∈ ts, ∀ u ∈ ts, u - s ≤ cfg.window)
    (hnow : ∀ s ∈ ts, nowD - s ≤ cfg.window)
    (hlater : ∀ s ∈ ts, cfg.window < later - s)
    (hb2 : List.Sorted (· ≤ ·) b2)
    (hb3 : rlLimit cfg isWrite ≤ ((evictOld n3 cfg.window b3).length : Int))
    (hb4 : ((evictOld n4 cfg.window b4).length : Int) < rlLimit cfg isWrite) :
    runAttempts cfg action isWrite [] ts =
      (List.replicate ts.length true, ts) ∧
    enforceRateLimit cfg action isWrite ts nowD =
      { admitted := false
        audits := [⟨action, .rateLimited,
          .rateLimit (rlLimit cfg isWrite) cfg.window⟩]
        bucket := ts } ∧
    enforceRateLimit cfg action isWrite ts later =
      { admitted := true, audits := [], bucket := [later] } ∧
    evictOld n2 cfg.window b2 = b2.filter (freshAt n2 cfg.window) ∧
    enforceRateLimit cfg action isWrite b3 n3 =
      { admitted := false
        audits := [⟨action, .rateLimited,
          .rateLimit (rlLimit cfg isWrite) cfg.window⟩]
        bucket := evictOld n3 cfg.window b3 } ∧
    enforceRateLimit cfg action isWrite b4 n4 =
      { admitted := true
        audits := []
        bucket := evictOld n4 cfg.window b4 ++ [n4] } := by
  refine ⟨?_, ?_, ?_, ?_, ?_, ?_⟩
  · apply runAttempts_all_admitted cfg action isWrite hEn ts []
    · simp only [List.length_nil, Nat.zero_add]
      omega
    · intro s hs u hu
      simp only [List.not_mem_nil, false_or] at hs hu
      exact hspan s hs u hu
  · have hfresh : evictOld nowD cfg.window ts = ts :=
      evictOld_of_fresh nowD cfg.window ts hnow
    rw [enforceRateLimit_denied cfg action isWrite ts nowD hEn]
    · rw [hfresh]
    · rw [hfresh]
      omega
  · have hstale : evictOld later cfg.window ts = [] :=
      evictOld_of_stale later cfg.window ts hlater
    have hpos : 0 < ts.length := List.length_pos.mpr hne
    rw [enforceRateLimit_admitted cfg action isWrite ts later hEn]
    · rw [hstale]
      rfl
    · rw [hstale]
      simp only [List.length_nil, Nat.cast_zero]
      omega
  · exact evictOld_sorted n2 cfg.window b2 hb2
  · exact enforceRateLimit_denied cfg action isWrite b3 n3 hEn hb3
  · exact enforceRateLimit_admitted cfg action isWrite b4 n4 hEn hb4

/-- Witness for `C2_sliding_window`: write class with limit 2 and window 60;
attempts at instants 0 and 1 are admitted, a third attempt at instant 30 is
denied and audited, and an attempt at instant 100 (more than 60 after both)
is admitted with bucket `[100]`. -/
theorem C2_sliding_window_witness :
    runAttempts cfgEx "api.write" true [] [0, 1] =
      (List.replicate 2 true, [0, 1]) ∧
    enforceRateLimit cfgEx "api.write" true [0, 1] 30 =
      { admitted := false
        audits := [⟨"api.write", .rateLimited,
          .rateLimit (rlLimit cfgEx true) cfgEx.window⟩]
        bucket := [0, 1] } ∧
    enforceRateLimit cfgEx "api.write" true [0, 1] 100 =
      { admitted := true, audits := [], bucket := [100] } ∧
    evictOld 70 cfgEx.window [0, 50] =
      List.filter (freshAt 70 cfgEx.window) [0, 50] ∧
    enforceRateLimit cfgEx "api.write" true [10, 11] 12 =
      { admitted := false
        audits := [⟨"api.write", .rateLimited,
          .rateLimit (rlLimit cfgEx true) cfgEx.window⟩]
        bucket := evictOld 12 cfgEx.window [10, 11] } ∧
    enforceRateLimit cfgEx "api.write" true [5] 6 =
      { admitted := true
        audits := []
        bucket := evictOld 6 cfgEx.window [5] ++ [6] } :=
  C2_sliding_window cfgEx "api.write" true [0, 1] 30 100 70 12 6 [0, 50]
    [10, 11] [5] (by decide) (by decide) (by decide) (by decide) (by decide)
    (by decide) (by decide) (by decide) (by decide)

/-! ## Claim C3 -/

lemma requireAuthGate_rateLimited (cfg : ServerConfig) (keyFn : String → String)
    (action : String) (isWrite flag : Bool) (h : RequestHeaders)
    (bucket : List Int) (now : Int)
    (hEn : cfg.rateLimitEnabled = true)
    (hge : rlLimit cfg isWrite ≤ ((evictOld now cfg.window bucket).length : Int)) :
    requireAuthGate cfg keyFn action isWrite flag h bucket now =
      { outcome := .error .tooManyRequests
        audits := [⟨action, .rateLimited,
          .rateLimit (rlLimit cfg isWrite) cfg.window⟩]
        bucket := evictOld now cfg.window bucket } := by
  unfold requireAuthGate
  rw [enforceRateLimit_denied cfg action isWrite bucket now hEn hge]
  rfl

lemma requireAuthGate_tenantError (cfg : ServerConfig) (keyFn : String → String)
    (action : String) (isWrite flag : Bool) (h : RequestHeaders)
    (bucket : List Int) (now : Int) (e : GateError)
    (hEn : cfg.rateLimitEnabled = true)
    (hlt : ((evictOld now cfg.window bucket).length : Int) < rlLimit cfg isWrite)
    (hbad : resolveTenantId cfg h.tenantHeader = .error e) :
    requireAuthGate cfg keyFn action isWrite flag h bucket now =
      { outcome := .error e
        audits := []
        bucket := evictOld now cfg.window bucket ++ [now] } := by
  unfold requireAuthGate
  rw [enforceRateLimit_admitted cfg action isWrite bucket now hEn hlt]
  unfold getTenantPaths
  rw [hbad]
  rfl

lemma requireAuthGate_authDenied (cfg : ServerConfig) (keyFn : String → String)
    (action : String) (isWrite flag : Bool) (h : RequestHeaders)
    (bucket : List Int) (now : Int) (tid : String)
    (hEn : cfg.rateLimitEnabled = true)
    (hlt : ((evictOld now cfg.window bucket).length : Int) < rlLimit cfg isWrite)
    (hok : resolveTenantId cfg h.tenantHeader = .ok tid)
    (hflag : flag = true)
    (htok : validateApiToken cfg
      (extractAuthToken h.authorization h.xClawworkToken) = .invalid) :
    requireAuthGate cfg keyFn action isWrite flag h bucket now =
      { outcome := .error .unauthorized
        audits := [⟨action ++ ".auth", .denied, .empty⟩]
        bucket := evictOld now cfg.window bucket ++ [now] } := by
  unfold requireAuthGate
  rw [enforceRateLimit_admitted cfg action isWrite bucket now hEn hlt]
  unfold getTenantPaths
  rw [hok, hflag]
  simp only [htok, Except.map]
  rfl

lemma requireAuthGate_authRaise (cfg : ServerConfig) (keyFn : String → String)
    (action : String) (isWrite flag : Bool) (h : RequestHeaders)
    (bucket : List Int) (now : Int) (tid : String)
    (hEn : cfg.rateLimitEnabled = true)
    (hlt : ((evictOld now cfg.window bucket).length : Int) < rlLimit cfg isWrite)
    (hok : resolveTenantId cfg h.tenantHeader = .ok tid)
    (hflag : flag = true)
    (htok : validateApiToken cfg
      (extractAuthToken h.authorization h.xClawworkToken) = .typeRaised) :
    requireAuthGate cfg keyFn action isWrite flag h bucket now =
      { outcome := .error .internalError
        audits := []
        bucket := evictOld now cfg.window bucket ++ [now] } := by
  unfold requireAuthGate
  rw [enforceRateLimit_admitted cfg action isWrite bucket now hEn hlt]
  unfold getTenantPaths
  rw [hok, hflag]
  simp only [htok, Except.map]
  rfl

lemma requireAuthGate_flagOff (cfg : ServerConfig) (keyFn : String → String)
    (action : String) (isWrite flag : Bool) (h : RequestHeaders)
    (bucket : List Int) (now : Int) (tid : String)
    (hEn : cfg.rateLimitEnabled = true)
    (hlt : ((evictOld now cfg.window bucket).length : Int) < rlLimit cfg isWrite)
    (hok : resolveTenantId cfg h.tenantHeader = .ok tid)
    (hflag : flag = false) :
    requireAuthGate cfg keyFn action isWrite flag h bucket now =
      { outcome := .ok ()
        audits := []
        bucket := evictOld now cfg.window bucket ++ [now] } := by
  unfold requireAuthGate
  rw [enforceRateLimit_admitted cfg action isWrite bucket now hEn hlt]
  unfold getTenantPaths
  rw [hok, hflag]
  rfl

/-- Claim C3, counterexample: the supplied token `"café"` is nonempty and
does not match the configured secret — an invalid token in the claim's
sense, and reachable since header values decode as latin-1 — yet
`secrets.compare_digest` raises `TypeError` on the non-ASCII string, so
both gates surface a 500 internal error with NO audit event, not the
claimed 401 with one `denied` audit. -/
theorem C3_counterexample :
    validateApiToken cfgEx "café" = .typeRaised ∧
    require_write_auth cfgEx exKeyFn
        ⟨some "acme", some "Bearer café", none⟩ [] 0 =
      { outcome := .error .internalError
        audits := []
        bucket := [0] } ∧
    require_read_auth cfgEx exKeyFn
        ⟨some "acme", some "Bearer café", none⟩ [] 0 =
      { outcome := .error .internalError
        audits := []
        bucket := [0] } := by
  refine ⟨rfl, rfl, rfl⟩

/-- Claim C3 (amended): both admission gates check in order rate limit,
then tenant resolution, then (only when the auth flag for that class is on)
the token.  Conjuncts, for the write gate and the read gate respectively:
(A) when the bucket is over the class limit the request fails 429 with a
`rate_limited` audit, whatever the headers contain; (B) when admitted but
the tenant header is invalid, the tenant error surfaces with no audit, even
though the token is also invalid; (C) when admitted, tenant valid, auth
flag on and the token missing (empty) or failing the constant-time
comparison, the gate fails `unauthorized` with exactly one `denied` audit
event; (D) with the auth flags off, the very same request passes with no
audit; (E) when the supplied token is nonempty but not ASCII-only,
`compare_digest` raises instead: the gate fails with a 500 internal error
and emits no audit at all. -/
theorem C3_admission_gates (cfg cfg₂ : ServerConfig)
    (keyFn : String → String) (hAny hdrBad hdrOk hdrRaise : RequestHeaders)
    (eBad : GateError) (tid tid2 : String) (bA bB : List Int) (nA nB : Int)
    (hEn : cfg.rateLimitEnabled = true)
    (hW : cfg.requireMutationAuth = true)
    (hR : cfg.requireReadAuth = true)
    (hcfg₂ : cfg₂ = { cfg with requireMutationAuth := false,
                               requireReadAuth := false })
    (hdW : cfg.writeRateLimit ≤ ((evictOld nA cfg.window bA).length : Int))
    (hdR : cfg.readRateLimit ≤ ((evictOld nA cfg.window bA).length : Int))
    (haW : ((evictOld nB cfg.window bB).length : Int) < cfg.writeRateLimit)
    (haR : ((evictOld nB cfg.window bB).length : Int) < cfg.readRateLimit)
    (hbad : resolveTenantId cfg hdrBad.tenantHeader = .error eBad)
    (hok : resolveTenantId cfg hdrOk.tenantHeader = .ok tid)
    (htok : validateApiToken cfg
      (extractAuthToken hdrOk.authorization hdrOk.xClawworkToken) = .invalid)
    (hokR : resolveTenantId cfg hdrRaise.tenantHeader = .ok tid2)
    (htokR : validateApiToken cfg
      (extractAuthToken hdrRaise.authorization hdrRaise.xClawworkToken) =
        .typeRaised) :
    require_write_auth cfg keyFn hAny bA nA =
      { outcome := .error .tooManyRequests
        audits := [⟨"api.write", .rateLimited,
          .rateLimit cfg.writeRateLimit cfg.window⟩]
        bucket := evictOld nA cfg.window bA } ∧
    require_read_auth cfg keyFn hAny bA nA =
      { outcome := .error .tooManyRequests
        audits := [⟨"api.read", .rateLimited,
          .rateLimit cfg.readRateLimit cfg.window⟩]
        bucket := evictOld nA cfg.window bA } ∧
    require_write_auth cfg keyFn hdrBad bB nB =
      { outcome := .error eBad
        audits := []
        bucket := evictOld nB cfg.window bB ++ [nB] } ∧
    require_read_auth cfg keyFn hdrBad bB nB =
      { outcome := .error eBad
        audits := []
        bucket := evictOld nB cfg.window bB ++ [nB] } ∧
    require_write_auth cfg keyFn hdrOk bB nB =
      { outcome := .error .unauthorized
        audits := [⟨"api.write.auth", .denied, .empty⟩]
        bucket := evictOld nB cfg.window bB ++ [nB] } ∧
    require_read_auth cfg keyFn hdrOk bB nB =
      { outcome := .error .unauthorized
        audits := [⟨"api.read.auth", .denied, .empty⟩]
        bucket := evictOld nB cfg.window bB ++ [nB] } ∧
    require_write_auth cfg₂ keyFn hdrOk bB nB =
      { outcome := .ok ()
        audits := []
        bucket := evictOld nB cfg.window bB ++ [nB] } ∧
    require_read_auth cfg₂ keyFn hdrOk bB nB =
      { outcome := .ok ()
        audits := []
        bucket := evictOld nB cfg.window bB ++ [nB] } ∧
    require_write_auth cfg keyFn hdrRaise bB nB =
      { outcome := .error .internalError
        audits := []
        bucket := evictOld nB cfg.window bB ++ [nB] } ∧
    require_read_auth cfg keyFn hdrRaise bB nB =
      { outcome := .error .internalError
        audits := []
        bucket := evictOld nB cfg.window bB ++ [nB] } := by
  subst hcfg₂
  refine ⟨?_, ?_, ?_, ?_, ?_, ?_, ?_, ?_, ?_, ?_⟩
  · exact requireAuthGate_rateLimited cfg keyFn "api.write" true
      cfg.requireMutationAuth hAny bA nA hEn hdW
  · exact requireAuthGate_rateLimited cfg keyFn "api.read" false
      cfg.requireReadAuth hAny bA nA hEn hdR
  · exact requireAuthGate_tenantError cfg keyFn "api.write" true
      cfg.requireMutationAuth hdrBad bB nB eBad hEn haW hbad
  · exact requireAuthGate_tenantError cfg keyFn "api.read" false
      cfg.requireReadAuth hdrBad bB nB eBad hEn haR hbad
  · exact requireAuthGate_authDenied cfg keyFn "api.write" true
      cfg.requireMutationAuth hdrOk bB nB tid hEn haW hok hW htok
  · exact requireAuthGate_authDenied cfg keyFn "api.read" false
      cfg.requireReadAuth hdrOk bB nB tid hEn haR hok hR htok
  · exact requireAuthGate_flagOff _ keyFn "api.write" true _ hdrOk bB nB tid
      hEn haW hok rfl
  · exact requireAuthGate_flagOff _ keyFn "api.read" false _ hdrOk bB nB tid
      hEn haR hok rfl
  · exact requireAuthGate_authRaise cfg keyFn "api.write" true
      cfg.requireMutationAuth hdrRaise bB nB tid2 hEn haW hokR hW htokR
  · exact requireAuthGate_authRaise cfg keyFn "api.read" false
      cfg.requireReadAuth hdrRaise bB nB tid2 hEn haR hokR hR htokR

/-- Witness for `C3_admission_gates`: the deployment `cfgEx` (both auth
flags on, limits 2), a full bucket at instant 5, an admittable bucket at
instant 6, an invalid tenant header `"bad/tenant"`, a valid tenant header
`"acme"` with a wrong ASCII token `"wrong"`, and the same tenant with the
non-ASCII token `"café"` that makes `compare_digest` raise. -/
theorem C3_admission_gates_witness :
    require_write_auth cfgEx exKeyFn ⟨some "bad/tenant", none, some "wrong"⟩
        [1, 2] 5 =
      { outcome := .error .tooManyRequests
        audits := [⟨"api.write", .rateLimited,
          .rateLimit cfgEx.writeRateLimit cfgEx.window⟩]
        bucket := evictOld 5 cfgEx.window [1, 2] } ∧
    require_read_auth cfgEx exKeyFn ⟨some "bad/tenant", none, some "wrong"⟩
        [1, 2] 5 =
      { outcome := .error .tooManyRequests
        audits := [⟨"api.read", .rateLimited,
          .rateLimit cfgEx.readRateLimit cfgEx.window⟩]
        bucket := evictOld 5 cfgEx.window [1, 2] } ∧
    require_write_auth cfgEx exKeyFn ⟨some "bad/tenant", none, some "wrong"⟩
        [3] 6 =
      { outcome := .error .invalidTenant
        audits := []
        bucket := evictOld 6 cfgEx.window [3] ++ [6] } ∧
    require_read_auth cfgEx exKeyFn ⟨some "bad/tenant", none, some "wrong"⟩
        [3] 6 =
      { outcome := .error .invalidTenant
        audits := []
        bucket := evictOld 6 cfgEx.window [3] ++ [6] } ∧
    require_write_auth cfgEx exKeyFn ⟨some "acme", none, some "wrong"⟩ [3] 6 =
      { outcome := .error .unauthorized
        audits := [⟨"api.write.auth", .denied, .empty⟩]
        bucket := evictOld 6 cfgEx.window [3] ++ [6] } ∧
    require_read_auth cfgEx exKeyFn ⟨some "acme", none, some "wrong"⟩ [3] 6 =
      { outcome := .error .unauthorized
        audits := [⟨"api.read.auth", .denied, .empty⟩]
        bucket := evictOld 6 cfgEx.window [3] ++ [6] } ∧
    require_write_auth
        { cfgEx with requireMutationAuth := false, requireReadAuth := false }
        exKeyFn ⟨some "acme", none, some "wrong"⟩ [3] 6 =
      { outcome := .ok ()
        audits := []
        bucket := evictOld 6 cfgEx.window [3] ++ [6] } ∧
    require_read_auth
        { cfgEx with requireMutationAuth := false, requireReadAuth := false }
        exKeyFn ⟨some "acme", none, some "wrong"⟩ [3] 6 =
      { outcome := .ok ()
        audits := []
        bucket := evictOld 6 cfgEx.window [3] ++ [6] } ∧
    require_write_auth cfgEx exKeyFn ⟨some "acme", none, some "café"⟩ [3] 6 =
      { outcome := .error .internalError
        audits := []
        bucket := evictOld 6 cfgEx.window [3] ++ [6] } ∧
    require_read_auth cfgEx exKeyFn ⟨some "acme", none, some "café"⟩ [3] 6 =
      { outcome := .error .internalError
        audits := []
        bucket := evictOld 6 cfgEx.window [3] ++ [6] } :=
  C3_admission_gates cfgEx
    { cfgEx with requireMutationAuth := false, requireReadAuth := false }
    exKeyFn ⟨some "bad/tenant", none, some "wrong"⟩
    ⟨some "bad/tenant", none, some "wrong"⟩ ⟨some "acme", none, some "wrong"⟩
    ⟨some "acme", none, some "café"⟩ .invalidTenant "acme" "acme" [1, 2] [3]
    5 6 (by decide) (by decide) (by decide) rfl (by decide) (by decide)
    (by decide) (by decide) (by decide) (by decide) (by decide) (by decide)
    (by decide)


/-! ## Claim C4 -/

lemma stopScan_none (killOk : Nat → Bool) (now simId : String) :
    ∀ sims : List SimRecord, (∀ s ∈ sims, s.id ≠ simId) →
      stopScan killOk now simId sims = (sims, false) := by
  intro sims
  induction sims with
  | nil => intro _; rfl
  | cons s rest ih =>
    intro h
    unfold stopScan
    rw [if_neg (h s (List.mem_cons_self s rest))]
    rw [ih fun x hx => h x (List.mem_cons_of_mem s hx)]

lemma stopScan_found (killOk : Nat → Bool) (now simId : String)
    (r : SimRecord) (hr : r.id = simId) :
    ∀ pre post : List SimRecord, (∀ s ∈ pre, s.id ≠ simId) →
      stopScan killOk now simId (pre ++ r :: post) =
        (pre ++ stopOne killOk now r :: post, true) := by
  intro pre
  induction pre with
  | nil =>
    intro post _
    rw [List.nil_append, List.nil_append]
    unfold stopScan
    rw [if_pos hr]
  | cons s pre ih =>
    intro post h
    rw [List.cons_append, List.cons_append]
    unfold stopScan
    rw [if_neg (h s (List.mem_cons_self s pre))]
    rw [ih post fun x hx => h x (List.mem_cons_of_mem s hx)]

lemma stop_simulation_scanned (killOk : Nat → Bool) (now simId : String)
    (sims : List SimRecord) (scanned : List SimRecord × Bool)
    (hscan : stopScan killOk now simId sims = scanned) :
    stop_simulation killOk now simId (.wellFormed sims) =
      if scanned.2 = false then
        { outcome := .notFound, written := none, audits := [] }
      else
        { outcome := .success
          written := some scanned.1
          audits := [⟨"simulation.stop", .allowed,
            .simulationStop simId⟩] } := by
  subst hscan
  rfl

/-- Claim C4: for `stop(tenant, id)`: a missing registry file or a registry
with no record of that id yields `NotFound` with nothing written and
nothing audited; stopping the (first) record with that id when it is
`running` transitions it to `stopped` when the termination signal lands and
to `terminated` when the process is already gone, both with the end time
recorded; stopping a record already in a terminal state changes neither its
status nor its end time; in each success case the full document is written
back and exactly one `allowed` audit event is emitted. -/
theorem C4_stop_simulation (killOk : Nat → Bool) (now simId : String)
    (sims0 pre post : List SimRecord) (r1 r2 r3 : SimRecord)
    (hnone : ∀ s ∈ sims0, s.id ≠ simId)
    (hpre : ∀ s ∈ pre, s.id ≠ simId)
    (h1 : r1.id = simId) (h1s : r1.status = .running)
    (h1k : killOk r1.pid = true)
    (h2 : r2.id = simId) (h2s : r2.status = .running)
    (h2k : killOk r2.pid = false)
    (h3 : r3.id = simId) (h3s : r3.status ≠ .running) :
    stop_simulation killOk now simId .absent =
      { outcome := .notFound, written := none, audits := [] } ∧
    stop_simulation killOk now simId (.wellFormed sims0) =
      { outcome := .notFound, written := none, audits := [] } ∧
    stop_simulation killOk now simId (.wellFormed (pre ++ r1 :: post)) =
      { outcome := .success
        written := some
          (pre ++ { r1 with status := .stopped, end_time := some now } :: post)
        audits := [⟨"simulation.stop", .allowed, .simulationStop simId⟩] } ∧
    stop_simulation killOk now simId (.wellFormed (pre ++ r2 :: post)) =
      { outcome := .success
        written := some
          (pre ++ { r2 with status := .terminated, end_time := some now } :: post)
        audits := [⟨"simulation.stop", .allowed, .simulationStop simId⟩] } ∧
    stop_simulation killOk now simId (.wellFormed (pre ++ r3 :: post)) =
      { outcome := .success
        written := some (pre ++ r3 :: post)
        audits := [⟨"simulation.stop", .allowed, .simulationStop simId⟩] } := by
  have e1 : stopOne killOk now r1 =
      { r1 with status := .stopped, end_time := some now } := by
    unfold stopOne
    rw [if_pos h1s, if_pos h1k]
  have e2 : stopOne killOk now r2 =
      { r2 with status := .terminated, end_time := some now } := by
    unfold stopOne
    rw [if_pos h2s]
    rw [if_neg]
    simp [h2k]
  have e3 : stopOne killOk now r3 = r3 := by
    unfold stopOne
    rw [if_neg h3s]
  refine ⟨rfl, ?_, ?_, ?_, ?_⟩
  · rw [stop_simulation_scanned killOk now simId sims0 (sims0, false)
      (stopScan_none killOk now simId sims0 hnone)]
    rfl
  · rw [stop_simulation_scanned killOk now simId (pre ++ r1 :: post)
      (pre ++ stopOne killOk now r1 :: post, true)
      (stopScan_found killOk now simId r1 h1 pre post hpre), e1]
    rfl
  · rw [stop_simulation_scanned killOk now simId (pre ++ r2 :: post)
      (pre ++ stopOne killOk now r2 :: post, true)
      (stopScan_found killOk now simId r2 h2 pre post hpre), e2]
    rfl
  · rw [stop_simulation_scanned killOk now simId (pre ++ r3 :: post)
      (pre ++ stopOne killOk now r3 :: post, true)
      (stopScan_found killOk now simId r3 h3 pre post hpre), e3]
    rfl

/-- Witness for `C4_stop_simulation`: registries around the records `srA`
(running, signal lands), `srB` (running, process already gone) and `srC`
(already stopped), with `srOther` before and after. -/
theorem C4_stop_simulation_witness :
    stop_simulation (eqNat 41) "2024-01-02T00:00:00" "sim-1" .absent =
      { outcome := .notFound, written := none, audits := [] } ∧
    stop_simulation (eqNat 41) "2024-01-02T00:00:00" "sim-1"
        (.wellFormed [srOther]) =
      { outcome := .notFound, written := none, audits := [] } ∧
    stop_simulation (eqNat 41) "2024-01-02T00:00:00" "sim-1"
        (.wellFormed ([srOther] ++ srA :: [srOther])) =
      { outcome := .success
        written := some ([srOther] ++
          { srA with status := .stopped,
                     end_time := some "2024-01-02T00:00:00" } :: [srOther])
        audits := [⟨"simulation.stop", .allowed, .simulationStop "sim-1"⟩] } ∧
    stop_simulation (eqNat 41) "2024-01-02T00:00:00" "sim-1"
        (.wellFormed ([srOther] ++ srB :: [srOther])) =
      { outcome := .success
        written := some ([srOther] ++
          { srB with status := .terminated,
                     end_time := some "2024-01-02T00:00:00" } :: [srOther])
        audits := [⟨"simulation.stop", .allowed, .simulationStop "sim-1"⟩] } ∧
    stop_simulation (eqNat 41) "2024-01-02T00:00:00" "sim-1"
        (.wellFormed ([srOther] ++ srC :: [srOther])) =
      { outcome := .success
        written := some ([srOther] ++ srC :: [srOther])
        audits := [⟨"simulation.stop", .allowed, .simulationStop "sim-1"⟩] } :=
  C4_stop_simulation (eqNat 41) "2024-01-02T00:00:00" "sim-1" [srOther]
    [srOther] [srOther] srA srB srC (by decide) (by decide) (by decide)
    (by decide) (by decide) (by decide) (by decide) (by decide) (by decide)
    (by decide)

/-! ## Claim C5 -/

lemma get_simulations_wellFormed (alive : Nat → Bool) (now : String)
    (sims : List SimRecord) :
    get_simulations alive now (.wellFormed sims) =
      { simulations := (sims.map (reconcileSim alive now)).map Prod.fst
        errorNote := none
        written :=
          if (sims.map (reconcileSim alive now)).any Prod.snd then
            some ((sims.map (reconcileSim alive now)).map Prod.fst)
          else none } := rfl

lemma reconcileSim_snd (alive : Nat → Bool) (now : String) (s : SimRecord) :
    (reconcileSim alive now s).2 = simDead alive s := by
  by_cases h : simDead alive s = true
  · simp [reconcileSim, h]
  · simp only [Bool.not_eq_true] at h
    simp [reconcileSim, h]

lemma reconcileSim_not_dead (alive : Nat → Bool) (now : String) (s : SimRecord)
    (h : simDead alive s = false) : reconcileSim alive now s = (s, false) := by
  simp [reconcileSim, h]

lemma reconcileSim_dead (alive : Nat → Bool) (now : String) (s : SimRecord)
    (hs : s.status = .running) (ha : alive s.pid = false) :
    reconcileSim alive now s =
      ({ s with status := .terminated, end_time := some now }, true) := by
  have h : simDead alive s = true := by simp [simDead, hs, ha]
  simp [reconcileSim, h]

lemma reconcileSim_fst_not_dead (alive : Nat → Bool) (now : String)
    (s : SimRecord) : simDead alive (reconcileSim alive now s).1 = false := by
  by_cases h : simDead alive s = true
  · unfold reconcileSim
    rw [if_pos h]
    simp [simDead]
  · simp only [Bool.not_eq_true] at h
    unfold reconcileSim
    rw [if_neg (by simp [h])]
    exact h

lemma map_any_simDead (alive : Nat → Bool) (now : String)
    (sims : List SimRecord) :
    (sims.map (reconcileSim alive now)).any Prod.snd =
      sims.any (simDead alive) := by
  induction sims with
  | nil => rfl
  | cons s rest ih => simp [List.any_cons, reconcileSim_snd, ih]

lemma get_simulations_no_dead (alive : Nat → Bool) (now : String)
    (sims : List SimRecord) (hnd : ∀ s ∈ sims, simDead alive s = false) :
    get_simulations alive now (.wellFormed sims) =
      { simulations := sims, errorNote := none, written := none } := by
  have hmap : sims.map (reconcileSim alive now) =
      sims.map (fun s => (s, false)) :=
    List.map_congr_left fun s hs => reconcileSim_not_dead alive now s (hnd s hs)
  rw [get_simulations_wellFormed, hmap]
  have h1 : (sims.map (fun s : SimRecord => (s, false))).map Prod.fst = sims := by
    rw [List.map_map]
    show List.map (fun s => s) sims = sims
    exact List.map_id' sims
  have h2 : (sims.map (fun s : SimRecord => (s, false))).any Prod.snd = false := by
    simp
  rw [h1, h2]
  rfl

/-- Claim C5: on `list`, a `running` record whose process is gone becomes
`terminated` with the end time recorded, a `running` record with a live
process and a terminal record are returned unchanged, and the document is
rewritten exactly when at least one transition occurred — it is rewritten
(to exactly the returned list) in the first scenario, and a registry with no
dead running record (in particular the output of a previous `list` under
the same liveness oracle, so the transition persists across a reload) is
returned as-is with no write; a missing file yields the empty listing. -/
theorem C5_list_reconciliation (alive : Nat → Bool) (now now2 : String)
    (sims sims2 : List SimRecord) (i1 i2 i3 : Nat) (r1 r2 r3 : SimRecord)
    (hg1 : sims[i1]? = some r1) (h1s : r1.status = .running)
    (h1a : alive r1.pid = false)
    (hg2 : sims[i2]? = some r2) (h2s : r2.status = .running)
    (h2a : alive r2.pid = true)
    (hg3 : sims[i3]? = some r3) (h3s : r3.status ≠ .running)
    (hnd : ∀ s ∈ sims2, simDead alive s = false) :
    (get_simulations alive now (.wellFormed sims)).simulations[i1]? =
      some { r1 with status := .terminated, end_time := some now } ∧
    (get_simulations alive now (.wellFormed sims)).simulations[i2]? =
      some r2 ∧
    (get_simulations alive now (.wellFormed sims)).simulations[i3]? =
      some r3 ∧
    (get_simulations alive now (.wellFormed sims)).errorNote = none ∧
    (get_simulations alive now (.wellFormed sims)).written =
      some (get_simulations alive now (.wellFormed sims)).simulations ∧
    get_simulations alive now2
        (.wellFormed (get_simulations alive now (.wellFormed sims)).simulations) =
      { simulations := (get_simulations alive now (.wellFormed sims)).simulations
        errorNote := none
        written := none } ∧
    get_simulations alive now (.wellFormed sims2) =
      { simulations := sims2, errorNote := none, written := none } ∧
    get_simulations alive now .absent =
      { simulations := [], errorNote := none, written := none } := by
  have hdead1 : simDead alive r1 = true := by simp [simDead, h1s, h1a]
  have hnd2 : simDead alive r2 = false := by simp [simDead, h2a]
  have hnd3 : simDead alive r3 = false := by simp [simDead, h3s]
  have hupd : (sims.map (reconcileSim alive now)).any Prod.snd = true := by
    rw [map_any_simDead]
    rw [List.any_eq_true]
    exact ⟨r1, List.getElem?_mem hg1, hdead1⟩
  refine ⟨?_, ?_, ?_, ?_, ?_, ?_, ?_, rfl⟩
  · rw [get_simulations_wellFormed]
    simp only [List.getElem?_map, hg1]
    show some (reconcileSim alive now r1).1 = _
    rw [reconcileSim_dead alive now r1 h1s h1a]
  · rw [get_simulations_wellFormed]
    simp only [List.getElem?_map, hg2]
    show some (reconcileSim alive now r2).1 = _
    rw [reconcileSim_not_dead alive now r2 hnd2]
  · rw [get_simulations_wellFormed]
    simp only [List.getElem?_map, hg3]
    show some (reconcileSim alive now r3).1 = _
    rw [reconcileSim_not_dead alive now r3 hnd3]
  · rw [get_simulations_wellFormed]
  · rw [get_simulations_wellFormed]
    simp only [hupd, if_true]
  · apply get_simulations_no_dead
    intro s hs
    rw [get_simulations_wellFormed] at hs
    simp only [List.map_map, List.mem_map] at hs
    obtain ⟨s0, _, hs0⟩ := hs
    rw [← hs0]
    exact reconcileSim_fst_not_dead alive now s0
  · exact get_simulations_no_dead alive now sims2 hnd

/-- Witness for `C5_list_reconciliation`: registry `[srA, srB, srC]` with
liveness oracle `eqNat 42` (only pid 42 alive): `srA` (running, pid 41) is
transitioned, `srB` (running, pid 42) and `srC` (stopped) are unchanged,
and the document is rewritten; the registry `[srB, srC]` is returned with
no write. -/
theorem C5_list_reconciliation_witness :
    (get_simulations (eqNat 42) "T1"
      (.wellFormed [srA, srB, srC])).simulations[0]? =
      some { srA with status := .terminated, end_time := some "T1" } ∧
    (get_simulations (eqNat 42) "T1"
      (.wellFormed [srA, srB, srC])).simulations[1]? = some srB ∧
    (get_simulations (eqNat 42) "T1"
      (.wellFormed [srA, srB, srC])).simulations[2]? = some srC ∧
    (get_simulations (eqNat 42) "T1"
      (.wellFormed [srA, srB, srC])).errorNote = none ∧
    (get_simulations (eqNat 42) "T1"
      (.wellFormed [srA, srB, srC])).written =
      some (get_simulations (eqNat 42) "T1"
        (.wellFormed [srA, srB, srC])).simulations ∧
    get_simulations (eqNat 42) "T2"
        (.wellFormed (get_simulations (eqNat 42) "T1"
          (.wellFormed [srA, srB, srC])).simulations) =
      { simulations := (get_simulations (eqNat 42) "T1"
          (.wellFormed [srA, srB, srC])).simulations
        errorNote := none
        written := none } ∧
    get_simulations (eqNat 42) "T1" (.wellFormed [srB, srC]) =
      { simulations := [srB, srC], errorNote := none, written := none } ∧
    get_simulations (eqNat 42) "T1" .absent =
      { simulations := [], errorNote := none, written := none } :=
  C5_list_reconciliation (eqNat 42) "T1" "T2" [srA, srB, srC] [srB, srC]
    0 1 2 srA srB srC rfl (by decide) (by decide) rfl (by decide)
    (by decide) rfl (by decide) (by decide)

/-! ## Claim C6 -/

lemma start_simulation_inject_ok (paths : TenantPaths) (allowed : List String)
    (simId : String) (pid : Nat) (now : String)
    (config c2 : List (String × JValue))
    (envVars : Option (List (String × String))) (file : RegistryFile)
    (hinj : injectDataPath config paths.data_path = .ok c2) :
    start_simulation paths allowed simId pid now config envVars file =
      (let unknown := match envVars with
         | none => ([] : List String)
         | some evs => unknownEnvKeys allowed evs
       if unknown ≠ [] then
         { outcome := .clientError unknown
           configWritten := some c2
           spawned := false
           registryWritten := none
           audits := [] }
       else
         match getSignature c2 with
         | .error msg =>
           { outcome := .serverError msg
             configWritten := some c2
             spawned := true
             registryWritten := none
             audits := [⟨"simulation.start", .error, .startError msg⟩] }
         | .ok signature =>
           { outcome := .success
             configWritten := some c2
             spawned := true
             registryWritten := some (registryOrEmpty file ++
               [⟨simId, pid, .running, signature, paths.tenant_key,
                 "configs/generated/" ++ simId ++ ".json", now, none⟩])
             audits := [⟨"simulation.start", .allowed,
               .simulationStart simId signature paths.tenant_key⟩] }) := by
  unfold start_simulation
  rw [hinj]

/-- Claim C6, counterexample: on a registry file with malformed JSON,
`stop_simulation` does NOT treat the corruption as an empty registry — the
`json.JSONDecodeError` is caught only by the generic handler, which audits
an `error` event and surfaces a 500 server error. -/
theorem C6_counterexample :
    stop_simulation constTrue "2024-01-02T00:00:00" "sim-1" .malformed =
      { outcome := .serverError "json decode error"
        written := none
        audits := [⟨"simulation.stop", .error,
          .simulationStopError "sim-1" "json decode error"⟩] } := rfl

/-- Claim C6 (amended): registry corruption is treated as an empty registry
and is never the cause of a failure for `start` — on a corrupted registry
`start` returns exactly the same result (outcome, writes, spawn, audits) as
on a missing one, and when the rest of the request is fine (env keys
allowed, signature extraction not raising) it succeeds, writing a
one-record registry — and for `list`, which completes with an empty listing
and an error note in the body, writing nothing; for `stop`, however,
corruption is fatal: the request fails with a 500 server error audited with
status `error`. -/
theorem C6_corruption_handling (paths : TenantPaths) (allowed : List String)
    (simId : String) (pid : Nat) (now : String)
    (config c2 : List (String × JValue)) (sig : JValue)
    (envVars : Option (List (String × String)))
    (alive killOk : Nat → Bool) (nowL nowS tgt : String)
    (hinj : injectDataPath config paths.data_path = .ok c2)
    (henv : envVars = none)
    (hsig : getSignature c2 = .ok sig) :
    start_simulation paths allowed simId pid now config envVars .malformed =
      start_simulation paths allowed simId pid now config envVars .absent ∧
    (start_simulation paths allowed simId pid now config envVars
      .malformed).outcome = .success ∧
    (start_simulation paths allowed simId pid now config envVars
      .malformed).registryWritten =
      some [⟨simId, pid, .running, sig, paths.tenant_key,
             "configs/generated/" ++ simId ++ ".json", now, none⟩] ∧
    get_simulations alive nowL .malformed =
      { simulations := []
        errorNote := some "json decode error"
        written := none } ∧
    stop_simulation killOk nowS tgt .malformed =
      { outcome := .serverError "json decode error"
        written := none
        audits := [⟨"simulation.stop", .error,
          .simulationStopError tgt "json decode error"⟩] } := by
  subst henv
  refine ⟨?_, ?_, ?_, rfl, rfl⟩
  · rw [start_simulation_inject_ok paths allowed simId pid now config c2
        none .malformed hinj,
      start_simulation_inject_ok paths allowed simId pid now config c2
        none .absent hinj]
    cases getSignature c2 with
    | error msg => rfl
    | ok s => rfl
  · rw [start_simulation_inject_ok paths allowed simId pid now config c2
      none .malformed hinj, hsig]
    rfl
  · rw [start_simulation_inject_ok paths allowed simId pid now config c2
      none .malformed hinj, hsig]
    rfl

/-- Witness for `C6_corruption_handling`: an empty submitted config over a
corrupted registry of the tenant `pathsEx` (its rewritten config has no
`agents`, so the extracted signature is `"unknown"`). -/
theorem C6_corruption_handling_witness :
    start_simulation pathsEx cfgEx.allowedEnvVarKeys "id-1" 7 "T0" [] none
        .malformed =
      start_simulation pathsEx cfgEx.allowedEnvVarKeys "id-1" 7 "T0" [] none
        .absent ∧
    (start_simulation pathsEx cfgEx.allowedEnvVarKeys "id-1" 7 "T0" [] none
        .malformed).outcome = .success ∧
    (start_simulation pathsEx cfgEx.allowedEnvVarKeys "id-1" 7 "T0" [] none
        .malformed).registryWritten =
      some [⟨"id-1", 7, .running, .str "unknown", pathsEx.tenant_key,
             "configs/generated/" ++ "id-1" ++ ".json", "T0", none⟩] ∧
    get_simulations constTrue "T1" .malformed =
      { simulations := []
        errorNote := some "json decode error"
        written := none } ∧
    stop_simulation constTrue "T2" "sim-9" .malformed =
      { outcome := .serverError "json decode error"
        written := none
        audits := [⟨"simulation.stop", .error,
          .simulationStopError "sim-9" "json decode error"⟩] } :=
  C6_corruption_handling pathsEx cfgEx.allowedEnvVarKeys "id-1" 7 "T0" []
    [("livebench", .obj [("data_path", .str "data/tenants/hacme/agent_data")])]
    (.str "unknown") none constTrue constTrue "T1" "T2" "sim-9" rfl rfl rfl


/-! ## Claim C7 -/

lemma lookupField_setField (fields : List (String × JValue)) (k : String)
    (v : JValue) : lookupField (setField fields k v) k = some v := by
  induction fields with
  | nil => simp [setField, lookupField]
  | cons p rest ih =>
    obtain ⟨k2, w⟩ := p
    by_cases h : k2 = k
    · unfold setField
      rw [if_pos h]
      unfold lookupField
      rw [if_pos h]
    · unfold setField
      rw [if_neg h]
      unfold lookupField
      rw [if_neg h]
      exact ih

lemma configDataPath_obj (fields lb : List (String × JValue))
    (h : lookupField fields "livebench" = some (.obj lb)) :
    configDataPath (some fields) =
      (match lookupField lb "data_path" with
       | some (.str s) => some s
       | _ => none) := by
  show (match lookupField fields "livebench" with
        | some (.obj lb) =>
          (match lookupField lb "data_path" with
           | some (.str s) => some s
           | _ => none)
        | _ => none) =
    (match lookupField lb "data_path" with
     | some (.str s) => some s
     | _ => none)
  rw [h]

lemma injectDataPath_lookup (config : List (String × JValue)) (p : String)
    (c2 : List (String × JValue)) (h : injectDataPath config p = .ok c2) :
    configDataPath (some c2) = some p := by
  unfold injectDataPath at h
  cases hl : lookupField config "livebench" with
  | none =>
    rw [hl] at h
    simp only [Except.ok.injEq] at h
    subst h
    rw [configDataPath_obj _ [("data_path", JValue.str p)]
      (lookupField_setField config "livebench" _)]
    rfl
  | some v =>
    rw [hl] at h
    cases v with
    | obj lb =>
      simp only [Except.ok.injEq] at h
      subst h
      rw [configDataPath_obj _ (setField lb "data_path" (.str p))
        (lookupField_setField config "livebench" _)]
      rw [lookupField_setField]
    | str s => simp at h
    | arr xs => simp at h
    | other => simp at h

lemma start_configWritten (paths : TenantPaths) (allowed : List String)
    (simId : String) (pid : Nat) (now : String)
    (config c2 : List (String × JValue))
    (envVars : Option (List (String × String))) (file : RegistryFile)
    (hinj : injectDataPath config paths.data_path = .ok c2) :
    (start_simulation paths allowed simId pid now config envVars
      file).configWritten = some c2 := by
  rw [start_simulation_inject_ok paths allowed simId pid now config c2
    envVars file hinj]
  cases envVars with
  | none =>
    cases getSignature c2 with
    | error msg => rfl
    | ok sig => rfl
  | some evs =>
    by_cases h : unknownEnvKeys allowed evs = []
    · simp only [h]
      cases getSignature c2 with
      | error msg => rfl
      | ok sig => rfl
    · simp only [ne_eq, h, not_false_eq_true, if_true]

/-- Claim C7: the config document persisted by a successful start has its
`livebench.data_path` field equal to the tenant's isolated agent-data
directory — which is `tenant_root ++ "/agent_data"` with the root derived
from the digest of the tenant id — regardless of what the caller supplied
at that key. -/
theorem C7_config_rewrite (cfg : ServerConfig) (keyFn : String → String)
    (header : Option String) (paths : TenantPaths) (allowed : List String)
    (simId : String) (pid : Nat) (now : String)
    (config : List (String × JValue))
    (envVars : Option (List (String × String))) (file : RegistryFile)
    (hpaths : getTenantPaths cfg keyFn header = .ok paths)
    (hsucc : (start_simulation paths allowed simId pid now config envVars
      file).outcome = .success) :
    configDataPath ((start_simulation paths allowed simId pid now config
      envVars file).configWritten) = some paths.data_path ∧
    paths.data_path = paths.tenant_root ++ "/agent_data" ∧
    paths.tenant_root = cfg.tenantsRoot ++ "/" ++ keyFn paths.tenant_id := by
  have hfields : paths.data_path = paths.tenant_root ++ "/agent_data" ∧
      paths.tenant_root = cfg.tenantsRoot ++ "/" ++ keyFn paths.tenant_id := by
    unfold getTenantPaths at hpaths
    cases hres : resolveTenantId cfg header with
    | error e =>
      rw [hres] at hpaths
      simp [Except.map] at hpaths
    | ok tid =>
      rw [hres] at hpaths
      simp only [Except.map, Except.ok.injEq] at hpaths
      subst hpaths
      simp
  cases hinj : injectDataPath config paths.data_path with
  | error msg =>
    exfalso
    unfold start_simulation at hsucc
    rw [hinj] at hsucc
    simp at hsucc
  | ok c2 =>
    refine ⟨?_, hfields.1, hfields.2⟩
    rw [start_configWritten paths allowed simId pid now config c2 envVars
      file hinj]
    exact injectDataPath_lookup config paths.data_path c2 hinj

/-- Witness for `C7_config_rewrite`: a successful start for tenant `"acme"`
whose submitted config already carries a malicious `data_path` inside its
`livebench` section; the persisted config nevertheless points at
`data/tenants/hacme/agent_data`. -/
theorem C7_config_rewrite_witness :
    configDataPath ((start_simulation pathsEx cfgEx.allowedEnvVarKeys "id-1"
      7 "T0" [("livebench", .obj [("data_path", .str "/etc/other-tenant")])]
      none .absent).configWritten) = some pathsEx.data_path ∧
    pathsEx.data_path = pathsEx.tenant_root ++ "/agent_data" ∧
    pathsEx.tenant_root = cfgEx.tenantsRoot ++ "/" ++ exKeyFn pathsEx.tenant_id :=
  C7_config_rewrite cfgEx exKeyFn (some "acme") pathsEx
    cfgEx.allowedEnvVarKeys "id-1" 7 "T0"
    [("livebench", .obj [("data_path", .str "/etc/other-tenant")])] none
    .absent (by decide) rfl

/-! ## Claim C8 -/

/-- Claim C8, counterexample: a start request whose env overrides contain a
key outside the allow-list does not always fail with a client (400) error —
when the submitted config's `livebench` section is not an object, the item
assignment `TypeError` is raised before the env validation is reached, and
the request fails with a 500 server error instead (still before any
subprocess is spawned). -/
theorem C8_counterexample :
    (start_simulation pathsEx cfgEx.allowedEnvVarKeys "id-1" 7 "T0"
        [("livebench", .str "oops")] (some [("EVIL", "x")]) .absent).outcome =
      .serverError "item assignment on non-dict livebench section" ∧
    unknownEnvKeys cfgEx.allowedEnvVarKeys [("EVIL", "x")] = ["EVIL"] := by
  constructor
  · rfl
  · rfl

/-- Claim C8 (amended): a start request whose env overrides contain a key
outside the allow-list fails before any subprocess is spawned and leaves
the registry document unwritten; the failure is a 400 client error naming
the unknown keys whenever the config rewrite succeeded, and a 500 server
error (raised even earlier, before the env check) when the submitted
config's `livebench` section was not an object. -/
theorem C8_env_allowlist (paths : TenantPaths) (allowed : List String)
    (simId : String) (pid : Nat) (now : String)
    (config configBad c2 : List (String × JValue)) (msg : String)
    (evs : List (String × String)) (file : RegistryFile)
    (hinj : injectDataPath config paths.data_path = .ok c2)
    (hinjBad : injectDataPath configBad paths.data_path = .error msg)
    (hbad : unknownEnvKeys allowed evs ≠ []) :
    start_simulation paths allowed simId pid now config (some evs) file =
      { outcome := .clientError (unknownEnvKeys allowed evs)
        configWritten := some c2
        spawned := false
        registryWritten := none
        audits := [] } ∧
    start_simulation paths allowed simId pid now configBad (some evs) file =
      { outcome := .serverError msg
        configWritten := none
        spawned := false
        registryWritten := none
        audits := [⟨"simulation.start", .error, .startError msg⟩] } := by
  constructor
  · unfold start_simulation
    rw [hinj]
    simp only [ne_eq, hbad, not_false_eq_true, if_true]
  · unfold start_simulation
    rw [hinjBad]

/-- Witness for `C8_env_allowlist`: the override key `"EVIL"` is outside the
allow-list; with a well-formed config the start fails 400 without spawning
or writing the registry, and with a non-object `livebench` section it fails
500, likewise without spawning or writing. -/
theorem C8_env_allowlist_witness :
    start_simulation pathsEx cfgEx.allowedEnvVarKeys "id-1" 7 "T0" []
        (some [("EVIL", "x")]) .absent =
      { outcome := .clientError
          (unknownEnvKeys cfgEx.allowedEnvVarKeys [("EVIL", "x")])
        configWritten := some [("livebench",
          .obj [("data_path", .str "data/tenants/hacme/agent_data")])]
        spawned := false
        registryWritten := none
        audits := [] } ∧
    start_simulation pathsEx cfgEx.allowedEnvVarKeys "id-1" 7 "T0"
        [("livebench", .str "oops")] (some [("EVIL", "x")]) .absent =
      { outcome := .serverError "item assignment on non-dict livebench section"
        configWritten := none
        spawned := false
        registryWritten := none
        audits := [⟨"simulation.start", .error,
          .startError "item assignment on non-dict livebench section"⟩] } :=
  C8_env_allowlist pathsEx cfgEx.allowedEnvVarKeys "id-1" 7 "T0" []
    [("livebench", .str "oops")]
    [("livebench", .obj [("data_path", .str "data/tenants/hacme/agent_data")])]
    "item assignment on non-dict livebench section" [("EVIL", "x")] .absent
    rfl rfl (by decide)

/-! ## Claim C9 -/

/-- Claim C9, counterexample: a broadcast with the (nonsensical but
type-correct) empty-string tenant filter is delivered to connections of
OTHER tenants — Python's `if tenant_key and ...` treats `""` as falsy, so
the filter is ignored; here the connection registered under tenant `"a"`
receives the message although `"a" ≠ ""`. -/
theorem C9_counterexample :
    (broadcast [(7, "a")] constTrue (some "")).delivered = [7] ∧
    "a" ≠ "" := by
  constructor
  · rfl
  · decide

/-- Connections kept (not skipped) by one broadcast pass. -/
lemma broadcastLoop_eq (sendOk : Nat → Bool) (tk : Option String) :
    ∀ conns : List (Nat × String),
      broadcastLoop sendOk tk conns =
        (((conns.filter fun c => !skipConn tk c.2).map Prod.fst),
         (((conns.filter fun c => !skipConn tk c.2).filter
            (sendPass sendOk)).map Prod.fst)) := by
  intro conns
  induction conns with
  | nil => rfl
  | cons c rest ih =>
    unfold broadcastLoop
    rw [ih]
    by_cases hs : skipConn tk c.2 = true
    · have hneg : ¬((fun x : Nat × String => !skipConn tk x.2) c = true) := by
        simp [hs]
      rw [if_pos hs,
        @List.filter_cons_of_neg _ (fun x : Nat × String => !skipConn tk x.2)
          c rest hneg]
    · have hpos : (fun x : Nat × String => !skipConn tk x.2) c = true := by
        simp [hs]
      rw [if_neg hs,
        @List.filter_cons_of_pos _ (fun x : Nat × String => !skipConn tk x.2)
          c rest hpos]
      by_cases hd : sendPass sendOk c = true
      · rw [List.filter_cons_of_pos hd, List.map_cons, List.map_cons]
        have hc : sendOk c.1 = true := hd
        rw [hc]
        rfl
      · rw [List.filter_cons_of_neg hd, List.map_cons]
        have hc : sendOk c.1 = false := by
          rw [Bool.not_eq_true] at hd
          exact hd
        rw [hc]
        rfl

lemma keep_eq_connMatches (k : String) (hk : k ≠ "") (c : Nat × String) :
    (!skipConn (some k) c.2) = connMatches k c := by
  unfold skipConn connMatches
  by_cases h : c.2 = k
  · simp [h, hk]
  · simp [h, hk]

lemma keep_none (c : Nat × String) : (!skipConn none c.2) = true := rfl

lemma keep_empty (c : Nat × String) : (!skipConn (some "") c.2) = true := by
  simp [skipConn]

/-- Claim C9 (amended): a broadcast with a nonempty tenant filter `k`
attempts delivery exactly on the connections registered under `k` (and
delivers to those among them whose send succeeds — a failure on one
connection affects no other); a broadcast with no filter attempts all
connections; an empty-string filter, being falsy in Python, also attempts
all connections; no broadcast ever deregisters a connection, and the set of
attempted connections is independent of which sends fail. -/
theorem C9_broadcast (conns : List (Nat × String)) (sendOk sendOk2 : Nat → Bool)
    (k : String) (hk : k ≠ "") :
    (broadcast conns sendOk (some k)).attempted =
      (conns.filter (connMatches k)).map Prod.fst ∧
    (broadcast conns sendOk (some k)).delivered =
      ((conns.filter (connMatches k)).filter (sendPass sendOk)).map Prod.fst ∧
    (broadcast conns sendOk none).attempted = conns.map Prod.fst ∧
    (broadcast conns sendOk none).delivered =
      (conns.filter (sendPass sendOk)).map Prod.fst ∧
    (broadcast conns sendOk (some "")).attempted = conns.map Prod.fst ∧
    (broadcast conns sendOk (some k)).conns = conns ∧
    (broadcast conns sendOk none).conns = conns ∧
    (broadcast conns sendOk (some k)).attempted =
      (broadcast conns sendOk2 (some k)).attempted := by
  have hfilt : (conns.filter fun c => !skipConn (some k) c.2) =
      conns.filter (connMatches k) :=
    List.filter_congr fun c _ => keep_eq_connMatches k hk c
  have hnone : (conns.filter fun c => !skipConn none c.2) = conns := by
    rw [List.filter_eq_self]
    intro c _
    exact keep_none c
  have hempty : (conns.filter fun c => !skipConn (some "") c.2) = conns := by
    rw [List.filter_eq_self]
    intro c _
    exact keep_empty c
  refine ⟨?_, ?_, ?_, ?_, ?_, rfl, rfl, ?_⟩
  · show (broadcastLoop sendOk (some k) conns).1 = _
    rw [broadcastLoop_eq, hfilt]
  · show (broadcastLoop sendOk (some k) conns).2 = _
    rw [broadcastLoop_eq, hfilt]
  · show (broadcastLoop sendOk none conns).1 = _
    rw [broadcastLoop_eq, hnone]
  · show (broadcastLoop sendOk none conns).2 = _
    rw [broadcastLoop_eq, hnone]
  · show (broadcastLoop sendOk (some "") conns).1 = _
    rw [broadcastLoop_eq, hempty]
  · show (broadcastLoop sendOk (some k) conns).1 =
      (broadcastLoop sendOk2 (some k) conns).1
    rw [broadcastLoop_eq, broadcastLoop_eq]

/-- Witness for `C9_broadcast`: three connections over two tenants, with a
send oracle that fails on connection 1: filtering on tenant `"a"` attempts
connections 1 and 3, delivers only to 3, removes nothing, and attempts the
same set under a fully failing oracle. -/
theorem C9_broadcast_witness :
    (broadcast [(1, "a"), (2, "b"), (3, "a")] (eqNat 3) (some "a")).attempted =
      (([(1, "a"), (2, "b"), (3, "a")].filter (connMatches "a")).map
        Prod.fst) ∧
    (broadcast [(1, "a"), (2, "b"), (3, "a")] (eqNat 3) (some "a")).delivered =
      ((([(1, "a"), (2, "b"), (3, "a")].filter (connMatches "a")).filter
        (sendPass (eqNat 3))).map Prod.fst) ∧
    (broadcast [(1, "a"), (2, "b"), (3, "a")] (eqNat 3) none).attempted =
      [(1, "a"), (2, "b"), (3, "a")].map Prod.fst ∧
    (broadcast [(1, "a"), (2, "b"), (3, "a")] (eqNat 3) none).delivered =
      ([(1, "a"), (2, "b"), (3, "a")].filter (sendPass (eqNat 3))).map
        Prod.fst ∧
    (broadcast [(1, "a"), (2, "b"), (3, "a")] (eqNat 3) (some "")).attempted =
      [(1, "a"), (2, "b"), (3, "a")].map Prod.fst ∧
    (broadcast [(1, "a"), (2, "b"), (3, "a")] (eqNat 3) (some "a")).conns =
      [(1, "a"), (2, "b"), (3, "a")] ∧
    (broadcast [(1, "a"), (2, "b"), (3, "a")] (eqNat 3) none).conns =
      [(1, "a"), (2, "b"), (3, "a")] ∧
    (broadcast [(1, "a"), (2, "b"), (3, "a")] (eqNat 3) (some "a")).attempted =
      (broadcast [(1, "a"), (2, "b"), (3, "a")] constFalse
        (some "a")).attempted :=
  C9_broadcast [(1, "a"), (2, "b"), (3, "a")] (eqNat 3) constFalse "a"
    (by decide)

/-! ## Claim C10 -/

lemma extractAuthToken_bearer (a : String) (x : Option String)
    (h : bearerGuard a = true) :
    extractAuthToken (some a) x = pyStrip (afterFirstSpace a) := by
  unfold extractAuthToken
  simp only [Option.getD_some]
  rw [if_pos h]

/-- Claim C10: an Authorization header passing the case-insensitive
`"bearer "` prefix test takes precedence unconditionally — the extracted
token is the (stripped) text after the first space, whatever the dedicated
`X-ClawWork-Token` header holds, and for the header value `"Bearer "`
exactly, that token is empty; consequently, with auth required on both
classes, a request carrying Authorization `"Bearer "` together with an
`X-ClawWork-Token` that on its own would validate is still rejected as
unauthorized with a `denied` audit by both gates. -/
theorem C10_bearer_precedence (a : String) (x1 x2 : Option String)
    (cfg : ServerConfig) (keyFn : String → String) (hdr : RequestHeaders)
    (bucket : List Int) (now : Int) (tid : String)
    (hbear : bearerGuard a = true)
    (hEn : cfg.rateLimitEnabled = true)
    (hWflag : cfg.requireMutationAuth = true)
    (hRflag : cfg.requireReadAuth = true)
    (hadmW : ((evictOld now cfg.window bucket).length : Int) <
      cfg.writeRateLimit)
    (hadmR : ((evictOld now cfg.window bucket).length : Int) <
      cfg.readRateLimit)
    (hten : resolveTenantId cfg hdr.tenantHeader = .ok tid)
    (hauth : hdr.authorization = some "Bearer ")
    (hxv : validateApiToken cfg
      (extractAuthToken none hdr.xClawworkToken) = .valid) :
    extractAuthToken (some a) x1 = extractAuthToken (some a) x2 ∧
    extractAuthToken (some a) x1 = pyStrip (afterFirstSpace a) ∧
    extractAuthToken (some "Bearer ") x1 = "" ∧
    require_write_auth cfg keyFn hdr bucket now =
      { outcome := .error .unauthorized
        audits := [⟨"api.write.auth", .denied, .empty⟩]
        bucket := evictOld now cfg.window bucket ++ [now] } ∧
    require_read_auth cfg keyFn hdr bucket now =
      { outcome := .error .unauthorized
        audits := [⟨"api.read.auth", .denied, .empty⟩]
        bucket := evictOld now cfg.window bucket ++ [now] } := by
  have htok : validateApiToken cfg
      (extractAuthToken hdr.authorization hdr.xClawworkToken) = .invalid := by
    rw [hauth, extractAuthToken_bearer _ _ (by decide)]
    show validateApiToken cfg "" = .invalid
    rfl
  refine ⟨?_, extractAuthToken_bearer a x1 hbear, ?_, ?_, ?_⟩
  · rw [extractAuthToken_bearer a x1 hbear, extractAuthToken_bearer a x2 hbear]
  · rw [extractAuthToken_bearer _ x1 (by decide)]
    rfl
  · exact requireAuthGate_authDenied cfg keyFn "api.write" true
      cfg.requireMutationAuth hdr bucket now tid hEn hadmW hten hWflag htok
  · exact requireAuthGate_authDenied cfg keyFn "api.read" false
      cfg.requireReadAuth hdr bucket now tid hEn hadmR hten hRflag htok

/-- Witness for `C10_bearer_precedence`: under `cfgEx` (auth required for
both classes, token `"s3cret-token"`), the request with tenant `"acme"`,
Authorization `"Bearer "` and a valid `X-ClawWork-Token` is rejected 401 by
both gates; the header `"BEARER  tok"` shows case-insensitive extraction
ignoring the X header. -/
theorem C10_bearer_precedence_witness :
    extractAuthToken (some "BEARER  tok") (some "s3cret-token") =
      extractAuthToken (some "BEARER  tok") none ∧
    extractAuthToken (some "BEARER  tok") (some "s3cret-token") =
      pyStrip (afterFirstSpace "BEARER  tok") ∧
    extractAuthToken (some "Bearer ") (some "s3cret-token") = "" ∧
    require_write_auth cfgEx exKeyFn
        ⟨some "acme", some "Bearer ", some "s3cret-token"⟩ [] 0 =
      { outcome := .error .unauthorized
        audits := [⟨"api.write.auth", .denied, .empty⟩]
        bucket := evictOld 0 cfgEx.window [] ++ [0] } ∧
    require_read_auth cfgEx exKeyFn
        ⟨some "acme", some "Bearer ", some "s3cret-token"⟩ [] 0 =
      { outcome := .error .unauthorized
        audits := [⟨"api.read.auth", .denied, .empty⟩]
        bucket := evictOld 0 cfgEx.window [] ++ [0] } :=
  C10_bearer_precedence "BEARER  tok" (some "s3cret-token") none cfgEx
    exKeyFn ⟨some "acme", some "Bearer ", some "s3cret-token"⟩ [] 0 "acme"
    (by decide) (by decide) (by decide) (by decide) (by decide) (by decide)
    (by decide) rfl (by decide)

end LiveBench
